import Mathlib

/-!
Shallow embedding of the `radial` task-orchestration core (goals, tasks,
lifecycle transitions, completion cascade, topological listing, similarity
matcher), translated from `src/src/models/*.rs`, `src/src/db.rs`,
`src/src/commands/task.rs`, `src/src/commands/goal.rs`,
`src/src/commands/list.rs` and `src/src/helpers.rs`.

Modelling conventions:
- timestamps (`chrono::DateTime<Utc>` / rfc3339 strings in the store) are a
  logical clock `Nat`; each command invocation receives one `now` value used
  for every `Utc::now()` call inside it;
- `i64` metric counters are `Int` (no claim depends on 64-bit wraparound);
- the SQLite store is a pair of lists of rows; SQL conditional `UPDATE`
  statements become maps over the row lists together with the
  `rows_affected > 0` boolean;
- generated ids (`nanoid`) are passed in as explicit arguments;
- printing/JSON output is dropped; a command returns its updated store
  and an `Except CmdError` result whose error constructors mirror the
  pairwise-distinct `anyhow!` error messages of the source.
-/

namespace Radial

inductive TaskState where
  | pending
  | blocked
  | inProgress
  | verifying
  | completed
  | failed
deriving DecidableEq, Repr

inductive GoalState where
  | pending
  | inProgress
  | completed
  | failed
deriving DecidableEq, Repr

structure Contract where
  receives : String
  produces : String
  verify : String
deriving DecidableEq, Repr

structure Outcome where
  summary : String
  artifacts : List String
deriving DecidableEq, Repr

structure TaskMetrics where
  tokens : Int
  elapsed_ms : Int
  retry_count : Int
deriving DecidableEq, Repr

structure Task where
  id : String
  goal_id : String
  description : String
  contract : Option Contract
  state : TaskState
  blocked_by : Option (List String)
  result : Option Outcome
  created_at : Nat
  updated_at : Nat
  completed_at : Option Nat
  metrics : TaskMetrics
deriving DecidableEq, Repr

structure Metrics where
  total_tokens : Int
  prompt_tokens : Int
  completion_tokens : Int
  elapsed_ms : Int
  task_count : Int
  tasks_completed : Int
  tasks_failed : Int
deriving DecidableEq, Repr

structure Goal where
  id : String
  parent_id : Option String
  description : String
  state : GoalState
  created_at : Nat
  updated_at : Nat
  completed_at : Option Nat
  metrics : Metrics
deriving DecidableEq, Repr

/-- `TaskMetrics::default()` in `src/src/models/task.rs`. -/
def TaskMetrics.zero : TaskMetrics := { tokens := 0, elapsed_ms := 0, retry_count := 0 }

/-- `Metrics::default()` in `src/src/models/goal.rs`. -/
def Metrics.zero : Metrics :=
  { total_tokens := 0, prompt_tokens := 0, completion_tokens := 0, elapsed_ms := 0,
    task_count := 0, tasks_completed := 0, tasks_failed := 0 }

/-! ## Similarity matcher (`src/src/helpers.rs`)

Strings are modelled as `List Char`; `s.len()` in the source is the byte
length, which coincides with the character count on the ASCII identifiers the
matcher is applied to (8-character alphanumeric ids). -/

/-- Inner loop of the `levenshtein_distance` matrix fill (`for j in 1..=len2`):
walking the rest of `s2` together with the tail of the previous matrix row,
carrying `diag = matrix[i-1][j-1]` and `cur = matrix[i][j-1]`, each cell is
`min(min(matrix[i-1][j] + 1, matrix[i][j-1] + 1), matrix[i-1][j-1] + cost)`. -/
def levInner (c1 : Char) : List Char → List Nat → Nat → Nat → List Nat
  | c2 :: cs, left :: ps, diag, cur =>
      let cost := if c1 = c2 then 0 else 1
      let v := min (min (left + 1) (cur + 1)) (diag + cost)
      v :: levInner c1 cs ps left v
  | _, _, _, _ => []

/-- Row `i` of the matrix from row `i - 1` (`matrix[i][0] = i`, then the inner
loop over `j`). -/
def levRow (c1 : Char) (s2 : List Char) (prev : List Nat) : List Nat :=
  let h := prev.headD 0 + 1
  h :: levInner c1 s2 (prev.drop 1) (prev.headD 0) h

/-- `levenshtein_distance` in `src/src/helpers.rs`: the dynamic-programming
matrix is filled row by row (`matrix[0][j] = j` is `List.range`), and the
result is `matrix[len1][len2]`, the last cell of the last row.  The source
indexes characters with `chars().nth` but sizes the matrix with byte lengths;
on the ASCII identifiers it is applied to the two coincide, and strings are
modelled as their character lists. -/
def levenshtein_distance (s1 s2 : List Char) : Nat :=
  let len1 := s1.length
  let len2 := s2.length
  if len1 = 0 then len2
  else if len2 = 0 then len1
  else ((s1.foldl (fun prev c1 => levRow c1 s2 prev)
          (List.range (len2 + 1))).getLast?).getD 0

/-- Loop body of `find_similar_id`: fold the running `best_match` over one
candidate. -/
def considerCandidate (target : List Char) (best : Option (List Char × Nat))
    (candidate : List Char) : Option (List Char × Nat) :=
  let distance := levenshtein_distance target candidate
  if distance ≤ 2 then
    match best with
    | some (_, best_distance) =>
        if distance < best_distance then some (candidate, distance) else best
    | none => some (candidate, distance)
  else best

/-- `find_similar_id` in `src/src/helpers.rs`. -/
def find_similar_id (target : List Char) (candidates : List (List Char)) :
    Option (List Char) :=
  if candidates.isEmpty then none
  else ((candidates.foldl (considerCandidate target) none).map (fun p => p.1))

/-- `find_similar_id` applied to Lean `String`s (the commands call it on ids). -/
def find_similar_id_str (target : String) (candidates : List String) : Option String :=
  (find_similar_id target.data (candidates.map String.data)).map (fun l => String.mk l)

/-! ## Entity store (`src/src/db.rs`)

The SQLite tables become two lists of rows.  `ORDER BY created_at ASC/DESC`
becomes a stable insertion sort on the logical clock. -/

structure Database where
  goals : List Goal
  tasks : List Task
deriving DecidableEq, Repr

def insertAscTask (t : Task) : List Task → List Task
  | [] => [t]
  | u :: us => if t.created_at < u.created_at then t :: u :: us else u :: insertAscTask t us

/-- `ORDER BY created_at ASC` over task rows. -/
def sortAscTasks (l : List Task) : List Task := l.foldr insertAscTask []

def insertDescGoal (g : Goal) : List Goal → List Goal
  | [] => [g]
  | u :: us => if u.created_at < g.created_at then g :: u :: us else u :: insertDescGoal g us

/-- `ORDER BY created_at DESC` over goal rows. -/
def sortDescGoals (l : List Goal) : List Goal := l.foldr insertDescGoal []

/-- `Database::create_goal`: `INSERT` fails (primary-key violation) when the id
is already present, in which case no row is written. -/
def Database.create_goal (db : Database) (goal : Goal) : Option Database :=
  if db.goals.any (fun g => decide (g.id = goal.id)) then none
  else some { db with goals := db.goals ++ [goal] }

/-- `Database::get_goal` (`SELECT ... FROM goals WHERE id = ?1`). -/
def Database.get_goal (db : Database) (id : String) : Option Goal :=
  db.goals.find? (fun g => decide (g.id = id))

/-- `Database::list_goals` (`SELECT ... FROM goals ORDER BY created_at DESC`). -/
def Database.list_goals (db : Database) : List Goal :=
  sortDescGoals db.goals

/-- `Database::update_goal`: the `UPDATE goals SET ... WHERE id = ?1` statement
writes every column except `id` and `created_at`. -/
def Database.update_goal (db : Database) (goal : Goal) : Database :=
  { db with goals := db.goals.map (fun u =>
      if u.id = goal.id then { goal with id := u.id, created_at := u.created_at } else u) }

/-- `Database::create_task`: `INSERT` fails on a duplicate primary key. -/
def Database.create_task (db : Database) (task : Task) : Option Database :=
  if db.tasks.any (fun t => decide (t.id = task.id)) then none
  else some { db with tasks := db.tasks ++ [task] }

/-- `Database::get_task` (`SELECT ... FROM tasks WHERE id = ?1`). -/
def Database.get_task (db : Database) (id : String) : Option Task :=
  db.tasks.find? (fun t => decide (t.id = id))

/-- `Database::list_tasks`
(`SELECT ... FROM tasks WHERE goal_id = ?1 ORDER BY created_at ASC`). -/
def Database.list_tasks (db : Database) (goal_id : String) : List Task :=
  sortAscTasks (db.tasks.filter (fun t => decide (t.goal_id = goal_id)))

/-- `Database::update_task`: the `UPDATE tasks SET ... WHERE id = ?1` statement
writes every column except `id` and `created_at`. -/
def Database.update_task (db : Database) (task : Task) : Database :=
  { db with tasks := db.tasks.map (fun u =>
      if u.id = task.id then { task with id := u.id, created_at := u.created_at } else u) }

/-- `Database::transition_task_state`:
`UPDATE tasks SET state = ?1, updated_at = ?2 WHERE id = ?3 AND state = ?4`,
paired with `rows_affected > 0`. -/
def Database.transition_task_state (db : Database) (task_id : String)
    (from_state to_state : TaskState) (updated_at : Nat) : Database × Bool :=
  ({ db with tasks := db.tasks.map (fun t =>
      if t.id = task_id ∧ t.state = from_state then
        { t with state := to_state, updated_at := updated_at }
      else t) },
   db.tasks.any (fun t => decide (t.id = task_id ∧ t.state = from_state)))

/-- `Database::transition_task_state_from_any`:
`UPDATE tasks SET state = ?1, updated_at = ?2 WHERE id = ?3 AND state IN (...)`. -/
def Database.transition_task_state_from_any (db : Database) (task_id : String)
    (from_states : List TaskState) (to_state : TaskState) (updated_at : Nat) :
    Database × Bool :=
  ({ db with tasks := db.tasks.map (fun t =>
      if t.id = task_id ∧ t.state ∈ from_states then
        { t with state := to_state, updated_at := updated_at }
      else t) },
   db.tasks.any (fun t => decide (t.id = task_id ∧ t.state ∈ from_states)))

/-- `Database::complete_task`: single conditional `UPDATE` guarded by
`state = 'in_progress'` that writes state, result, token/elapsed metrics,
`updated_at` and `completed_at`. -/
def Database.complete_task (db : Database) (task_id : String) (result_summary : String)
    (result_artifacts : List String) (tokens elapsed_ms : Int)
    (updated_at completed_at : Nat) : Database × Bool :=
  ({ db with tasks := db.tasks.map (fun t =>
      if t.id = task_id ∧ t.state = TaskState.inProgress then
        { t with state := TaskState.completed,
                 result := some { summary := result_summary, artifacts := result_artifacts },
                 metrics := { t.metrics with tokens := tokens, elapsed_ms := elapsed_ms },
                 updated_at := updated_at,
                 completed_at := some completed_at }
      else t) },
   db.tasks.any (fun t => decide (t.id = task_id ∧ t.state = TaskState.inProgress)))

/-- `Database::retry_task`:
`UPDATE tasks SET state = 'in_progress', retry_count = retry_count + 1,
updated_at = ?2 WHERE id = ?3 AND state = 'failed'`. -/
def Database.retry_task (db : Database) (task_id : String) (updated_at : Nat) :
    Database × Bool :=
  ({ db with tasks := db.tasks.map (fun t =>
      if t.id = task_id ∧ t.state = TaskState.failed then
        { t with state := TaskState.inProgress,
                 metrics := { t.metrics with retry_count := t.metrics.retry_count + 1 },
                 updated_at := updated_at }
      else t) },
   db.tasks.any (fun t => decide (t.id = task_id ∧ t.state = TaskState.failed)))

/-! ## Command layer (`src/src/commands/goal.rs`, `src/src/commands/task.rs`)

Each constructor of `CmdError` corresponds to one of the pairwise-distinct
`anyhow!` error messages raised by the commands.  A command returns the store
after any writes it performed together with its result. -/

inductive CmdError where
  | goalNotFound (id : String) (suggestion : Option String)
  | blockedByTaskNotFound (id : String) (suggestion : Option String)
  | taskNotFound (id : String) (suggestion : Option String)
  | noContract (id : String)
  | taskBlocked (blockers : List String)
  | wrongStateStart (current : TaskState)
  | startConflict
  | wrongStateComplete (current : TaskState)
  | completeConflict
  | wrongStateFail (current : TaskState)
  | failConflict
  | wrongStateRetry (current : TaskState)
  | retryConflict
  | storage
  | unwrapNone
deriving DecidableEq, Repr

/-- Candidate ids for "did you mean" on a task lookup miss: the commands
gather every task id across all goals (`for goal in all_goals { ... }`). -/
def allTaskIds (db : Database) : List String :=
  db.list_goals.foldl (fun acc g => acc ++ (db.list_tasks g.id).map (fun t => t.id)) []

namespace goal

/-- `commands::goal::create` (printing dropped; the generated id and the clock
are explicit arguments). -/
def create (description : String) (new_id : String) (now : Nat) (db : Database) :
    Database × Except CmdError Goal :=
  let g : Goal :=
    { id := new_id, parent_id := none, description := description,
      state := GoalState.pending, created_at := now, updated_at := now,
      completed_at := none, metrics := Metrics.zero }
  match db.create_goal g with
  | none => (db, .error .storage)
  | some db1 => (db1, .ok g)

end goal

namespace task

/-- `commands::task::create`. -/
def create (goal_id description : String)
    (receives produces verify : Option String)
    (blocked_by : Option (List String))
    (new_id : String) (now : Nat) (db : Database) :
    Database × Except CmdError Task :=
  match db.get_goal goal_id with
  | none =>
      let goal_ids := db.list_goals.map (fun g => g.id)
      (db, .error (.goalNotFound goal_id (find_similar_id_str goal_id goal_ids)))
  | some goal =>
      let existing_task_ids := (db.list_tasks goal.id).map (fun t => t.id)
      let missing : Option String :=
        match blocked_by with
        | none => none
        | some task_ids => task_ids.find? (fun tid => !(existing_task_ids.contains tid))
      match missing with
      | some task_id =>
          (db, .error (.blockedByTaskNotFound task_id
            (find_similar_id_str task_id existing_task_ids)))
      | none =>
        let contract : Option Contract :=
          if receives.isSome || produces.isSome || verify.isSome then
            some { receives := receives.getD "", produces := produces.getD "",
                   verify := verify.getD "" }
          else none
        let task : Task :=
          { id := new_id, goal_id := goal.id, description := description,
            contract := contract,
            state := if blocked_by.isSome then TaskState.blocked else TaskState.pending,
            blocked_by := blocked_by, result := none,
            created_at := now, updated_at := now, completed_at := none,
            metrics := TaskMetrics.zero }
        match db.create_task task with
        | none => (db, .error .storage)
        | some db1 =>
          let updated_goal :=
            { goal with
              updated_at := now,
              state := if goal.state = GoalState.pending then GoalState.inProgress
                       else goal.state }
          (db1.update_goal updated_goal, .ok task)

/-- Write phase of `commands::task::start`: the conditional store update and
the translation of a failed guard into the concurrency-conflict error. -/
def startWrite (task : Task) (now : Nat) (db : Database) : Database × Except CmdError Unit :=
  let res := db.transition_task_state task.id TaskState.pending TaskState.inProgress now
  if res.2 then (res.1, .ok ()) else (res.1, .error .startConflict)

/-- `commands::task::start`. -/
def start (task_id : String) (now : Nat) (db : Database) : Database × Except CmdError Unit :=
  match db.get_task task_id with
  | none =>
      (db, .error (.taskNotFound task_id (find_similar_id_str task_id (allTaskIds db))))
  | some task =>
    if task.contract.isNone then
      (db, .error (.noContract task.id))
    else
      match task.state, task.blocked_by with
      | TaskState.blocked, some blocked_by => (db, .error (.taskBlocked blocked_by))
      | _, _ =>
        if task.state ≠ TaskState.pending then
          (db, .error (.wrongStateStart task.state))
        else
          startWrite task now db

/-- Write phase of `commands::task::fail`. -/
def failWrite (task : Task) (now : Nat) (db : Database) : Database × Except CmdError Unit :=
  let res := db.transition_task_state_from_any task.id
    [TaskState.inProgress, TaskState.verifying] TaskState.failed now
  if res.2 then (res.1, .ok ()) else (res.1, .error .failConflict)

/-- `commands::task::fail`. -/
def fail (task_id : String) (now : Nat) (db : Database) : Database × Except CmdError Unit :=
  match db.get_task task_id with
  | none =>
      (db, .error (.taskNotFound task_id (find_similar_id_str task_id (allTaskIds db))))
  | some task =>
    if task.state ≠ TaskState.inProgress ∧ task.state ≠ TaskState.verifying then
      (db, .error (.wrongStateFail task.state))
    else
      failWrite task now db

/-- Write phase of `commands::task::retry` (conditional update, then re-fetch
for the updated `retry_count`; the source's `.unwrap()` on the re-fetch is the
`unwrapNone` panic case). -/
def retryWrite (task : Task) (now : Nat) (db : Database) : Database × Except CmdError Task :=
  let res := db.retry_task task.id now
  if res.2 then
    match res.1.get_task task.id with
    | none => (res.1, .error .unwrapNone)
    | some t => (res.1, .ok t)
  else (res.1, .error .retryConflict)

/-- `commands::task::retry`. -/
def retry (task_id : String) (now : Nat) (db : Database) : Database × Except CmdError Task :=
  match db.get_task task_id with
  | none =>
      (db, .error (.taskNotFound task_id (find_similar_id_str task_id (allTaskIds db))))
  | some task =>
    if task.state ≠ TaskState.failed then
      (db, .error (.wrongStateRetry task.state))
    else
      retryWrite task now db

end task

/-- Body of the unblocking loop in `commands::task::complete` (lines 303-323):
one `dependent_task` is examined against the just-fetched snapshot
`all_tasks`; when it is `Blocked`, its `blocked_by` contains the completed
task's id, and every id in `blocked_by` resolves to a `Completed` task in the
snapshot, it is rewritten to `Pending` and recorded as unblocked. -/
def unblockStep (completed_task_id : String) (all_tasks : List Task) (now : Nat)
    (acc : Database × List String) (dependent_task : Task) : Database × List String :=
  if dependent_task.state = TaskState.blocked then
    match dependent_task.blocked_by with
    | some blocked_by =>
      if blocked_by.contains completed_task_id then
        if blocked_by.all (fun blocker_id =>
            all_tasks.any (fun t => decide (t.id = blocker_id ∧ t.state = TaskState.completed))) then
          let d := { dependent_task with state := TaskState.pending, updated_at := now }
          (acc.1.update_task d, acc.2 ++ [d.id])
        else acc
      else acc
    | none => acc
  else acc

/-- The whole unblocking pass: the loop `for mut dependent_task in
all_tasks.iter().cloned()`, accumulating store writes and the reported
unblocked ids. -/
def unblockPass (completed_task_id : String) (all_tasks : List Task) (now : Nat)
    (db : Database) : Database × List String :=
  all_tasks.foldl (unblockStep completed_task_id all_tasks now) (db, [])

/-- Goal rollup of `commands::task::complete` (lines 326-335): the
`all_completed` check short-circuits before the `any_failed` check. -/
def goalRollup (goal : Goal) (all_tasks : List Task) (now : Nat) : Goal :=
  let all_completed := all_tasks.all (fun t => decide (t.state = TaskState.completed))
  let any_failed := all_tasks.any (fun t => decide (t.state = TaskState.failed))
  if all_completed then
    { goal with state := GoalState.completed, completed_at := some now }
  else if any_failed then
    { goal with state := GoalState.failed }
  else goal

namespace task

/-- Cascade of `commands::task::complete` after the conditional completion
write succeeded (lines 288-349): re-fetch the task (`unwrap`), fetch its goal,
run the unblocking pass over the snapshot, re-fetch the goal's tasks, roll the
goal state up and persist it. -/
def completeCascade (task_id : String) (now : Nat) (db1 : Database) :
    Database × Except CmdError (Task × List String) :=
  match db1.get_task task_id with
  | none => (db1, .error .unwrapNone)
  | some task =>
    match db1.get_goal task.goal_id with
    | none => (db1, .error (.goalNotFound task.goal_id none))
    | some goal0 =>
      let goal := { goal0 with updated_at := now }
      let all_tasks := db1.list_tasks goal.id
      let res := unblockPass task.id all_tasks now db1
      let all_tasks2 := res.1.list_tasks goal.id
      let goal2 := goalRollup goal all_tasks2 now
      (res.1.update_goal goal2, .ok (task, res.2))

/-- Write phase of `commands::task::complete`: the conditional completion
update, then the cascade. -/
def completeWrite (task : Task) (result_summary : String)
    (artifacts : Option (List String)) (tokens elapsed : Option Int)
    (now : Nat) (db : Database) : Database × Except CmdError (Task × List String) :=
  let res := db.complete_task task.id result_summary (artifacts.getD [])
    (tokens.getD 0) (elapsed.getD 0) now now
  if res.2 then completeCascade task.id now res.1
  else (res.1, .error .completeConflict)

/-- `commands::task::complete`. -/
def complete (task_id result_summary : String) (artifacts : Option (List String))
    (tokens elapsed : Option Int) (now : Nat) (db : Database) :
    Database × Except CmdError (Task × List String) :=
  match db.get_task task_id with
  | none =>
      (db, .error (.taskNotFound task_id (find_similar_id_str task_id (allTaskIds db))))
  | some task =>
    if task.state ≠ TaskState.inProgress then
      (db, .error (.wrongStateComplete task.state))
    else
      completeWrite task result_summary artifacts tokens elapsed now db

end task

/-! ## Topological listing (`src/src/commands/list.rs`)

`topo_sort` receives the goal's tasks in creation order (the caller passes
`db.list_tasks(goal.id())`, i.e. `ORDER BY created_at ASC`).  The Rust
function keeps `in_degree` in a `std::collections::HashMap`, whose iteration
order is arbitrary and varies between processes; the initial Kahn queue is
built by iterating that map.  The embedding makes the iteration order an
explicit parameter `mapOrder` (a listing of the map's keys, i.e. of the task
ids); every run of the compiled program corresponds to some value of
`mapOrder`.  `HashMap` and `Vec` contents are association lists. -/

structure TopoTask where
  id : String
  blocked_by : List String
  created_at : Nat
deriving DecidableEq, Repr

def alLookupNat (m : List (String × Nat)) (k : String) : Option Nat :=
  (m.find? (fun p => decide (p.1 = k))).map (fun p => p.2)

def alLookupList (m : List (String × List String)) (k : String) : Option (List String) :=
  (m.find? (fun p => decide (p.1 = k))).map (fun p => p.2)

def alSetNat (m : List (String × Nat)) (k : String) (v : Nat) : List (String × Nat) :=
  m.map (fun p => if p.1 = k then (p.1, v) else p)

/-- `dependents.entry(blocker).or_default().push(task.id)`. -/
def alPush (m : List (String × List String)) (k v : String) : List (String × List String) :=
  if m.any (fun p => decide (p.1 = k)) then
    m.map (fun p => if p.1 = k then (p.1, p.2 ++ [v]) else p)
  else m ++ [(k, [v])]

/-- Decrement step over one dependent: `*deg -= 1; if *deg == 0 { queue.push_back(dep) }`
(the source would underflow below zero; that situation is unreachable for
degree-consistent inputs and the embedding saturates at 0). -/
def decrementDep (st : List (String × Nat) × List String) (dep : String) :
    List (String × Nat) × List String :=
  match alLookupNat st.1 dep with
  | some deg =>
      let deg1 := deg - 1
      (alSetNat st.1 dep deg1, if deg1 = 0 then st.2 ++ [dep] else st.2)
  | none => st

/-- Kahn loop of `topo_sort` (`while let Some(id) = queue.pop_front()`), with
explicit fuel; the fuel chosen by `topo_sort` exceeds every possible number of
queue pushes. -/
def kahnLoop (fuel : Nat) (queue : List String) (in_degree : List (String × Nat))
    (dependents : List (String × List String)) (ordered_ids : List String) : List String :=
  match fuel with
  | 0 => ordered_ids
  | fuel + 1 =>
    match queue with
    | [] => ordered_ids
    | id :: rest =>
      let ordered_ids := ordered_ids ++ [id]
      match alLookupList dependents id with
      | some deps =>
          let st := deps.foldl decrementDep (in_degree, [])
          kahnLoop fuel (rest ++ st.2) st.1 dependents ordered_ids
      | none => kahnLoop fuel rest in_degree dependents ordered_ids

/-- `topo_sort` in `src/src/commands/list.rs`, with the `HashMap` iteration
order of `in_degree` as the explicit parameter `mapOrder`. -/
def topo_sort (mapOrder : List String) (tasks : List TopoTask) : List TopoTask :=
  let task_ids := tasks.map (fun t => t.id)
  let in_degree : List (String × Nat) :=
    tasks.map (fun t => (t.id, (t.blocked_by.filter (fun b => task_ids.contains b)).length))
  let dependents : List (String × List String) :=
    tasks.foldl (fun m t =>
      t.blocked_by.foldl (fun m blocker =>
        if task_ids.contains blocker then alPush m blocker t.id else m) m) []
  let queue := mapOrder.filter (fun id => decide (alLookupNat in_degree id = some 0))
  let fuel := tasks.length + tasks.foldl (fun n t => n + t.blocked_by.length) 0 + 1
  let ordered_ids := kahnLoop fuel queue in_degree dependents []
  ordered_ids.filterMap (fun id => tasks.find? (fun t => decide (t.id = id)))

/-! ## Spec-side predicates, loop invariants and concrete scenario stores

Definitions used by the claim theorems below: Boolean forms of the loop
conditions, the reachable-store relation, and the concrete stores the
witnesses and counterexamples evaluate the commands on. -/

/-! ## C9: the similarity matcher -/

/-- Loop invariant of the `find_similar_id` fold: after processing the
candidates in `processed`, `none` means no processed candidate was within
distance 2, and `some (c, d)` means `c` is a processed candidate at its true
distance `d ≤ 2` with no processed candidate strictly closer. -/
def bestInv (target : List Char) (processed : List (List Char)) :
    Option (List Char × Nat) → Prop
  | none => ∀ c ∈ processed, ¬ (levenshtein_distance target c ≤ 2)
  | some (c, d) => c ∈ processed ∧ d = levenshtein_distance target c ∧ d ≤ 2 ∧
      ∀ c' ∈ processed, ¬ (levenshtein_distance target c' < d)

/-! ## C4: initial task state vs `blocked_by` -/

/-- A store holding one goal `G1`, for concrete task-creation runs. -/
def c4Db : Database := (goal.create "demo" "G1" 0 { goals := [], tasks := [] }).1

/-- The store and task produced by the concrete empty-`blocked_by` creation. -/
def c4Db' : Database := (task.create "G1" "tx" none none none (some []) "TX" 1 c4Db).1

def c4Task : Task :=
  { id := "TX", goal_id := "G1", description := "tx", contract := none,
    state := TaskState.blocked, blocked_by := some [], result := none,
    created_at := 1, updated_at := 1, completed_at := none, metrics := TaskMetrics.zero }

/-! ## C8: topological listing tie-breaking -/

def taskA : TopoTask := { id := "A", blocked_by := [], created_at := 0 }

def taskB : TopoTask := { id := "B", blocked_by := [], created_at := 1 }

def taskBdep : TopoTask := { id := "B", blocked_by := ["A"], created_at := 1 }

def taskC : TopoTask := { id := "C", blocked_by := ["A", "B"], created_at := 2 }

/-- Witness for `conditional_transition_spec`: a one-task store in which the
guarded start transition fires (guard satisfied), shown via the iff. -/
def c5Task : Task :=
  { id := "T1", goal_id := "G1", description := "d", contract := none,
    state := TaskState.pending, blocked_by := none, result := none,
    created_at := 0, updated_at := 0, completed_at := none, metrics := TaskMetrics.zero }

def c5Db : Database := { goals := [], tasks := [c5Task] }

/-- Store with one contract-less pending task, for the `start_spec` witness. -/
def c3Task : Task :=
  { id := "T1", goal_id := "G1", description := "d", contract := none,
    state := TaskState.pending, blocked_by := none, result := none,
    created_at := 0, updated_at := 0, completed_at := none, metrics := TaskMetrics.zero }

def c3Db : Database := { goals := [], tasks := [c3Task] }

/-! ## Unblocking-pass machinery (toward C1, C6, C7) -/

/-- The condition under which the unblocking loop rewrites a dependent task:
it is `Blocked`, its `blocked_by` contains the completed task's id, and every
id in `blocked_by` resolves to a `Completed` task of the snapshot. -/
def shouldUnblock (completed_task_id : String) (all_tasks : List Task) (d : Task) : Bool :=
  decide (d.state = TaskState.blocked) &&
    (match d.blocked_by with
     | some blocked_by =>
         blocked_by.contains completed_task_id &&
         blocked_by.all (fun blocker_id =>
           all_tasks.any (fun t => decide (t.id = blocker_id ∧ t.state = TaskState.completed)))
     | none => false)

/-- "`retry_count` comes from `ref`": every row of `cur` shares its id and
`retry_count` with some row of `ref`. -/
def retryCountsFrom (ref cur : List Task) : Prop :=
  ∀ t' ∈ cur, ∃ t ∈ ref, t.id = t'.id ∧ t.metrics.retry_count = t'.metrics.retry_count

/-- Store with one failed task, for the `retry_spec` witness. -/
def c6Task : Task :=
  { id := "T1", goal_id := "G1", description := "d", contract := none,
    state := TaskState.failed, blocked_by := none, result := none,
    created_at := 0, updated_at := 0, completed_at := none, metrics := TaskMetrics.zero }

def c6Db : Database := { goals := [], tasks := [c6Task] }

/-! ## C10: frame preservation of the conditional updates -/

/-- All task fields other than `state`, `updated_at` and `metrics` agree. -/
def sameTaskCore (t u : Task) : Prop :=
  u.id = t.id ∧ u.goal_id = t.goal_id ∧ u.description = t.description ∧
  u.contract = t.contract ∧ u.blocked_by = t.blocked_by ∧ u.result = t.result ∧
  u.created_at = t.created_at ∧ u.completed_at = t.completed_at

def c10Db : Database := { goals := [], tasks := [] }

/-- Concrete scenario for the C1 witness: `T3` in progress, `T4` blocked
solely by `T3`. -/
def c1Blocker : Task :=
  { id := "T3", goal_id := "G1", description := "b",
    contract := some { receives := "r", produces := "", verify := "" },
    state := TaskState.inProgress, blocked_by := none, result := none,
    created_at := 0, updated_at := 0, completed_at := none, metrics := TaskMetrics.zero }

def c1Dep : Task :=
  { id := "T4", goal_id := "G1", description := "d", contract := none,
    state := TaskState.blocked, blocked_by := some ["T3"], result := none,
    created_at := 1, updated_at := 1, completed_at := none, metrics := TaskMetrics.zero }

def c1Goal : Goal :=
  { id := "G1", parent_id := none, description := "g", state := GoalState.inProgress,
    created_at := 0, updated_at := 0, completed_at := none, metrics := Metrics.zero }

def c1Db : Database := { goals := [c1Goal], tasks := [c1Blocker, c1Dep] }

/-- The row `complete` re-fetches for `T3` after the conditional write. -/
def c1Task1 : Task :=
  { id := "T3", goal_id := "G1", description := "b",
    contract := some { receives := "r", produces := "", verify := "" },
    state := TaskState.completed, blocked_by := none,
    result := some { summary := "done", artifacts := [] },
    created_at := 0, updated_at := 5, completed_at := some 5,
    metrics := TaskMetrics.zero }

/-- Concrete scenario for the C2 witness: one in-progress task under `G1`. -/
def c2Task : Task :=
  { id := "T1", goal_id := "G1", description := "d",
    contract := some { receives := "r", produces := "", verify := "" },
    state := TaskState.inProgress, blocked_by := none, result := none,
    created_at := 0, updated_at := 0, completed_at := none, metrics := TaskMetrics.zero }

def c2Goal : Goal :=
  { id := "G1", parent_id := none, description := "g", state := GoalState.inProgress,
    created_at := 0, updated_at := 0, completed_at := none, metrics := Metrics.zero }

def c2Db : Database := { goals := [c2Goal], tasks := [c2Task] }

def c2Task1 : Task :=
  { id := "T1", goal_id := "G1", description := "d",
    contract := some { receives := "r", produces := "", verify := "" },
    state := TaskState.completed, blocked_by := none,
    result := some { summary := "done", artifacts := [] },
    created_at := 0, updated_at := 4, completed_at := some 4,
    metrics := TaskMetrics.zero }

/-! ## C7: `completed_at` vs goal state over reachable stores -/

/-- The per-goal relationship between `state` and `completed_at` that the
engine actually maintains: `Completed` implies a stamp, and a stamp implies
the goal is `Completed` or was demoted to `Failed` by the rollup (which never
clears `completed_at`). -/
def GoalInv (g : Goal) : Prop :=
  (g.state = GoalState.completed → g.completed_at.isSome) ∧
  (g.completed_at.isSome → g.state = GoalState.completed ∨ g.state = GoalState.failed)

def DbInv (db : Database) : Prop := ∀ g ∈ db.goals, GoalInv g

/-- The stores reachable from an empty store through the public engine
operations (create-goal, create-task, start, complete, fail, retry), for any
arguments, generated ids and clock values. -/
inductive Reachable : Database → Prop where
  | empty : Reachable { goals := [], tasks := [] }
  | goal_create (description new_id : String) (now : Nat) {db : Database} :
      Reachable db → Reachable (goal.create description new_id now db).1
  | task_create (goal_id description : String) (receives produces verify : Option String)
      (blocked_by : Option (List String)) (new_id : String) (now : Nat) {db : Database} :
      Reachable db →
      Reachable (task.create goal_id description receives produces verify blocked_by
        new_id now db).1
  | task_start (task_id : String) (now : Nat) {db : Database} :
      Reachable db → Reachable (task.start task_id now db).1
  | task_complete (task_id result_summary : String) (artifacts : Option (List String))
      (tokens elapsed : Option Int) (now : Nat) {db : Database} :
      Reachable db →
      Reachable (task.complete task_id result_summary artifacts tokens elapsed now db).1
  | task_fail (task_id : String) (now : Nat) {db : Database} :
      Reachable db → Reachable (task.fail task_id now db).1
  | task_retry (task_id : String) (now : Nat) {db : Database} :
      Reachable db → Reachable (task.retry task_id now db).1

/-- Concrete command sequence breaking the `completed_at ↔ Completed` iff:
goal `G1` completes (task `T1`), then gains tasks `T2` (started and failed)
and `T3`; completing `T3` makes the rollup demote `G1` to `Failed` while its
`completed_at` stamp from step 4 survives. -/
def c7d1 : Database := (goal.create "g" "G1" 0 { goals := [], tasks := [] }).1

def c7d2 : Database := (task.create "G1" "t1" (some "r") none none none "T1" 1 c7d1).1

def c7d3 : Database := (task.start "T1" 2 c7d2).1

def c7d4 : Database := (task.complete "T1" "done" none none none 3 c7d3).1

def c7d5 : Database := (task.create "G1" "t2" (some "r") none none none "T2" 4 c7d4).1

def c7d6 : Database := (task.create "G1" "t3" (some "r") none none none "T3" 5 c7d5).1

def c7d7 : Database := (task.start "T2" 6 c7d6).1

def c7d8 : Database := (task.fail "T2" 7 c7d7).1

def c7d9 : Database := (task.start "T3" 8 c7d8).1

def c7d10 : Database := (task.complete "T3" "done" none none none 9 c7d9).1

/-- The goal row of `G1` after step 4 of the scenario. -/
def c7g4 : Goal :=
  { id := "G1", parent_id := none, description := "g", state := GoalState.completed,
    created_at := 0, updated_at := 3, completed_at := some 3, metrics := Metrics.zero }

/-! ## Support lemmas -/

theorem map_ite_id {α : Type} (l : List α) (p : α → Prop) [DecidablePred p] (f : α → α)
    (h : ∀ a ∈ l, ¬ p a) : (l.map (fun a => if p a then f a else a)) = l := by
  induction l with
  | nil => rfl
  | cons a t ih =>
      have ha := h a (List.mem_cons_self a t)
      simp only [List.map, if_neg ha, ih (fun x hx => h x (List.mem_cons_of_mem a hx))]

theorem find?_map_congr {α : Type} (l : List α) (p : α → Bool) (g : α → α)
    (hg : ∀ a, p (g a) = p a) : (l.map g).find? p = (l.find? p).map g := by
  induction l with
  | nil => rfl
  | cons a t ih =>
      by_cases hpa : p a = true
      · simp only [List.map, List.find?_cons_of_pos _ ((hg a).trans hpa),
          List.find?_cons_of_pos _ hpa, Option.map_some']
      · have hpa' : ¬ p a = true := hpa
        have hga : ¬ p (g a) = true := by simpa [hg a] using hpa'
        simp only [List.map]
        rw [List.find?_cons_of_neg _ hga, List.find?_cons_of_neg _ hpa', ih]

theorem insertAscTask_perm (t : Task) (l : List Task) :
    (insertAscTask t l).Perm (t :: l) := by
  induction l with
  | nil => simp [insertAscTask]
  | cons u us ih =>
      unfold insertAscTask
      by_cases h : t.created_at < u.created_at
      · simp [h]
      · simp only [h, if_false]
        exact (ih.cons u).trans (List.Perm.swap t u us)

theorem sortAscTasks_perm (l : List Task) : (sortAscTasks l).Perm l := by
  induction l with
  | nil => simp [sortAscTasks]
  | cons a t ih =>
      have : sortAscTasks (a :: t) = insertAscTask a (sortAscTasks t) := rfl
      rw [this]
      exact (insertAscTask_perm a (sortAscTasks t)).trans (ih.cons a)

theorem mem_sortAscTasks {t : Task} {l : List Task} : t ∈ sortAscTasks l ↔ t ∈ l :=
  (sortAscTasks_perm l).mem_iff

theorem find?_id_of_nodup (l : List Task) (h : (l.map Task.id).Nodup) {a : Task}
    (ha : a ∈ l) : l.find? (fun t => decide (t.id = a.id)) = some a := by
  induction l with
  | nil => cases ha
  | cons b t ih =>
      rcases List.mem_cons.mp ha with rfl | hat
      · simp [List.find?_cons_of_pos]
      · have hb : b.id ∉ t.map Task.id := (List.nodup_cons.mp h).1
        have hane : ¬ (b.id = a.id) := fun he =>
          hb (he ▸ List.mem_map_of_mem Task.id hat)
        rw [List.find?_cons_of_neg _ (by simpa using hane)]
        exact ih (List.nodup_cons.mp h).2 hat

theorem bestInv_step (target : List Char) (processed : List (List Char))
    (best : Option (List Char × Nat)) (cand : List Char)
    (h : bestInv target processed best) :
    bestInv target (processed ++ [cand]) (considerCandidate target best cand) := by
  unfold considerCandidate
  by_cases h2 : levenshtein_distance target cand ≤ 2
  · simp only [h2, if_pos]
    cases best with
    | none =>
        refine ⟨List.mem_append_right _ (List.mem_singleton_self cand), rfl, h2, ?_⟩
        intro c' hc'
        rcases List.mem_append.mp hc' with hl | hr
        · exact fun hlt => h c' hl (le_of_lt (lt_of_lt_of_le hlt h2))
        · rw [List.mem_singleton.mp hr]; exact lt_irrefl _
    | some p =>
        obtain ⟨hmem, hdist, hle, hmin⟩ := h
        by_cases hlt : levenshtein_distance target cand < p.2
        · simp only [hlt, if_pos]
          refine ⟨List.mem_append_right _ (List.mem_singleton_self cand), rfl, h2, ?_⟩
          intro c' hc'
          rcases List.mem_append.mp hc' with hl | hr
          · exact fun hlt' => hmin c' hl (lt_trans hlt' hlt)
          · rw [List.mem_singleton.mp hr]; exact lt_irrefl _
        · simp only [hlt, if_neg, not_false_iff]
          refine ⟨List.mem_append_left _ hmem, hdist, hle, ?_⟩
          intro c' hc'
          rcases List.mem_append.mp hc' with hl | hr
          · exact hmin c' hl
          · rw [List.mem_singleton.mp hr]; exact hlt
  · simp only [h2, if_neg, not_false_iff]
    cases best with
    | none =>
        intro c' hc'
        rcases List.mem_append.mp hc' with hl | hr
        · exact h c' hl
        · rw [List.mem_singleton.mp hr]; exact h2
    | some p =>
        obtain ⟨hmem, hdist, hle, hmin⟩ := h
        refine ⟨List.mem_append_left _ hmem, hdist, hle, ?_⟩
        intro c' hc'
        rcases List.mem_append.mp hc' with hl | hr
        · exact hmin c' hl
        · rw [List.mem_singleton.mp hr]
          intro hc
          exact h2 (le_of_lt (lt_of_lt_of_le hc hle))

theorem bestInv_foldl (target : List Char) :
    ∀ (cands : List (List Char)) (best : Option (List Char × Nat))
      (processed : List (List Char)),
      bestInv target processed best →
      bestInv target (processed ++ cands) (cands.foldl (considerCandidate target) best) := by
  intro cands
  induction cands with
  | nil => intro best processed h; simpa using h
  | cons c cs ih =>
      intro best processed h
      have h1 := bestInv_step target processed best c h
      have h2 := ih (considerCandidate target best c) (processed ++ [c]) h1
      simpa [List.append_assoc] using h2

/-- C9: `find_similar_id` returns `some c` only when `c` is a candidate whose
edit distance to the target is at most 2 and no candidate is strictly closer;
when no candidate is within distance 2 (in particular when the candidate set
is empty) it returns `none`. -/
theorem find_similar_id_spec (target : List Char) (candidates : List (List Char)) :
    (∀ c, find_similar_id target candidates = some c →
        c ∈ candidates ∧ levenshtein_distance target c ≤ 2 ∧
        ∀ c' ∈ candidates,
          ¬ (levenshtein_distance target c' < levenshtein_distance target c)) ∧
    ((∀ c' ∈ candidates, ¬ (levenshtein_distance target c' ≤ 2)) →
        find_similar_id target candidates = none) := by
  have hinv := bestInv_foldl target candidates none [] (by intro c hc; cases hc)
  simp only [List.nil_append] at hinv
  unfold find_similar_id
  by_cases hempty : candidates.isEmpty
  · constructor
    · intro c hc; rw [if_pos hempty] at hc; cases hc
    · intro _; rw [if_pos hempty]
  · rw [if_neg hempty]
    cases hfold : candidates.foldl (considerCandidate target) none with
    | none =>
        rw [hfold] at hinv
        constructor
        · intro c hc; simp at hc
        · intro _; rfl
    | some p =>
        rw [hfold] at hinv
        obtain ⟨hmem, hdist, hle, hmin⟩ := hinv
        constructor
        · intro c hc
          simp only [Option.map_some'] at hc
          have hc1 : p.1 = c := Option.some.inj hc
          subst hc1
          exact ⟨hmem, hdist ▸ hle, fun c' hc' => hdist ▸ hmin c' hc'⟩
        · intro hall
          exact absurd (hdist ▸ hle) (hall p.1 hmem)

/-- Witness for `find_similar_id_spec` at a concrete call: candidates at
distance 1, 1 and 3 from the target, the first closest one returned. -/
theorem find_similar_id_spec_witness :
    "ab".data ∈ ["ab".data, "ac".data, "xyz".data] ∧
    levenshtein_distance "abc".data "ab".data ≤ 2 ∧
    ∀ c' ∈ ["ab".data, "ac".data, "xyz".data],
      ¬ (levenshtein_distance "abc".data c' < levenshtein_distance "abc".data "ab".data) :=
  (find_similar_id_spec "abc".data ["ab".data, "ac".data, "xyz".data]).1 "ab".data (by rfl)

/-- C4 counterexample: creating a task with an explicitly supplied *empty*
`blocked_by` list yields state `Blocked`, not `Pending` — the source tests
`blocked_by.is_some()`, not non-emptiness. -/
theorem create_empty_blocked_by_counterexample :
    ((task.create "G1" "tx" none none none (some []) "TX" 1 c4Db).2.map
        (fun t => t.state)) = Except.ok TaskState.blocked ∧
    TaskState.blocked ≠ TaskState.pending := ⟨rfl, by decide⟩

/-- C4 (amended): a created task's initial state is `Blocked` iff a
`blocked_by` argument was supplied (`Some`, even when the list is empty), and
`Pending` iff it was absent; the supplied list is stored as given. -/
theorem create_state_iff_blocked_by_supplied
    (goal_id description : String) (receives produces verify : Option String)
    (blocked_by : Option (List String)) (new_id : String) (now : Nat)
    (db db' : Database) (t : Task)
    (h : task.create goal_id description receives produces verify blocked_by new_id now db
          = (db', Except.ok t)) :
    t.state = (if blocked_by.isSome then TaskState.blocked else TaskState.pending) ∧
    t.blocked_by = blocked_by := by
  unfold task.create at h
  cases hg : db.get_goal goal_id with
  | none => rw [hg] at h; simp at h
  | some goal =>
      rw [hg] at h
      dsimp only at h
      split at h
      · simp at h
      · split at h
        · simp at h
        · simp only [Prod.mk.injEq] at h
          obtain ⟨-, h2⟩ := h
          cases h2
          exact ⟨rfl, rfl⟩

/-- Witness for `create_state_iff_blocked_by_supplied` at a concrete creation. -/
theorem create_state_iff_blocked_by_supplied_witness :
    c4Task.state = (if (some ([] : List String)).isSome then TaskState.blocked
                    else TaskState.pending) ∧
    c4Task.blocked_by = some [] :=
  create_state_iff_blocked_by_supplied "G1" "tx" none none none (some []) "TX" 1
    c4Db c4Db' c4Task rfl

/-- C8: the initial Kahn queue of `topo_sort` follows the `HashMap` iteration
order of `in_degree`, not creation order, contradicting the function's own doc
comment ("Falls back to creation order for ties").  With two independent tasks
`A`, `B` given in creation order, a map iteration order of `["B", "A"]` (a
legal `std::collections::HashMap` iteration order) makes the function list `B`
first, while the iteration order `["A", "B"]` lists `A` first — the output is
not determined by creation order.  The dependency example
`{A, B blocked_by [A], C blocked_by [A, B]}` does come out as `[A, B, C]`. -/
theorem topo_sort_tie_break_counterexample :
    (topo_sort ["B", "A"] [taskA, taskB]).map (fun t => t.id) = ["B", "A"] ∧
    (topo_sort ["A", "B"] [taskA, taskB]).map (fun t => t.id) = ["A", "B"] ∧
    (["B", "A"] : List String) ≠ ["A", "B"] ∧
    (topo_sort ["C", "B", "A"] [taskA, taskBdep, taskC]).map (fun t => t.id)
      = ["A", "B", "C"] := by
  refine ⟨rfl, rfl, by decide, rfl⟩

/-! ## Conditional-update characterizations (toward C5, C10) -/

theorem taskCondAny_true {l : List Task} {p : Task → Prop} [DecidablePred p] :
    l.any (fun t => decide (p t)) = true ↔ ∃ t ∈ l, p t := by
  simp [List.any_eq_true]

theorem taskCondMap_id {l : List Task} {p : Task → Prop} [DecidablePred p] {f : Task → Task}
    (h : l.any (fun t => decide (p t)) = false) :
    l.map (fun t => if p t then f t else t) = l := by
  apply map_ite_id
  intro a ha hpa
  have htrue : l.any (fun t => decide (p t)) = true :=
    List.any_eq_true.mpr ⟨a, ha, by simpa using hpa⟩
  simp [h] at htrue

theorem transition_task_state_false_frame (db : Database) (tid : String)
    (fs ts : TaskState) (upd : Nat)
    (h : (db.transition_task_state tid fs ts upd).2 = false) :
    (db.transition_task_state tid fs ts upd).1 = db := by
  unfold Database.transition_task_state at h ⊢
  rw [show (({ db with tasks := db.tasks.map (fun t =>
        if t.id = tid ∧ t.state = fs then { t with state := ts, updated_at := upd } else t) },
      db.tasks.any (fun t => decide (t.id = tid ∧ t.state = fs))) : Database × Bool).1
      = { db with tasks := db.tasks.map (fun t =>
        if t.id = tid ∧ t.state = fs then { t with state := ts, updated_at := upd } else t) }
    from rfl]
  rw [taskCondMap_id h]

theorem transition_from_any_false_frame (db : Database) (tid : String)
    (fss : List TaskState) (ts : TaskState) (upd : Nat)
    (h : (db.transition_task_state_from_any tid fss ts upd).2 = false) :
    (db.transition_task_state_from_any tid fss ts upd).1 = db := by
  unfold Database.transition_task_state_from_any at h ⊢
  exact congrArg (fun tl => Database.mk db.goals tl) (taskCondMap_id h)

theorem complete_task_false_frame (db : Database) (tid rs : String)
    (arts : List String) (tok el : Int) (upd cmp : Nat)
    (h : (db.complete_task tid rs arts tok el upd cmp).2 = false) :
    (db.complete_task tid rs arts tok el upd cmp).1 = db := by
  unfold Database.complete_task at h ⊢
  exact congrArg (fun tl => Database.mk db.goals tl) (taskCondMap_id h)

theorem retry_task_false_frame (db : Database) (tid : String) (upd : Nat)
    (h : (db.retry_task tid upd).2 = false) :
    (db.retry_task tid upd).1 = db := by
  unfold Database.retry_task at h ⊢
  exact congrArg (fun tl => Database.mk db.goals tl) (taskCondMap_id h)

/-- C5: every explicit lifecycle transition is a single conditional update:
the `rows_affected > 0` flag of each store operation is true exactly when some
row has the expected id and prior state(s); a failed guard leaves the store
untouched, and each command's write phase turns a failed guard into its
concurrency-conflict error, which differs from the not-found and
invalid-state errors of the same command. -/
theorem conditional_transition_spec :
    (∀ (db : Database) (tid : String) (fs ts : TaskState) (upd : Nat),
      ((db.transition_task_state tid fs ts upd).2 = true ↔
        ∃ t ∈ db.tasks, t.id = tid ∧ t.state = fs) ∧
      ((db.transition_task_state tid fs ts upd).2 = false →
        (db.transition_task_state tid fs ts upd).1 = db)) ∧
    (∀ (db : Database) (tid : String) (fss : List TaskState) (ts : TaskState) (upd : Nat),
      ((db.transition_task_state_from_any tid fss ts upd).2 = true ↔
        ∃ t ∈ db.tasks, t.id = tid ∧ t.state ∈ fss) ∧
      ((db.transition_task_state_from_any tid fss ts upd).2 = false →
        (db.transition_task_state_from_any tid fss ts upd).1 = db)) ∧
    (∀ (db : Database) (tid rs : String) (arts : List String) (tok el : Int) (upd cmp : Nat),
      ((db.complete_task tid rs arts tok el upd cmp).2 = true ↔
        ∃ t ∈ db.tasks, t.id = tid ∧ t.state = TaskState.inProgress) ∧
      ((db.complete_task tid rs arts tok el upd cmp).2 = false →
        (db.complete_task tid rs arts tok el upd cmp).1 = db)) ∧
    (∀ (db : Database) (tid : String) (upd : Nat),
      ((db.retry_task tid upd).2 = true ↔
        ∃ t ∈ db.tasks, t.id = tid ∧ t.state = TaskState.failed) ∧
      ((db.retry_task tid upd).2 = false → (db.retry_task tid upd).1 = db)) ∧
    (∀ (t : Task) (now : Nat) (db : Database),
      (db.transition_task_state t.id TaskState.pending TaskState.inProgress now).2 = false →
      task.startWrite t now db = (db, Except.error CmdError.startConflict)) ∧
    (∀ (t : Task) (now : Nat) (db : Database),
      (db.transition_task_state_from_any t.id [TaskState.inProgress, TaskState.verifying]
        TaskState.failed now).2 = false →
      task.failWrite t now db = (db, Except.error CmdError.failConflict)) ∧
    (∀ (t : Task) (now : Nat) (db : Database),
      (db.retry_task t.id now).2 = false →
      task.retryWrite t now db = (db, Except.error CmdError.retryConflict)) ∧
    (∀ (t : Task) (rs : String) (arts : Option (List String)) (tok el : Option Int)
        (now : Nat) (db : Database),
      (db.complete_task t.id rs (arts.getD []) (tok.getD 0) (el.getD 0) now now).2 = false →
      task.completeWrite t rs arts tok el now db = (db, Except.error CmdError.completeConflict)) ∧
    (∀ (s : String) (sug : Option String) (st : TaskState),
      CmdError.startConflict ≠ CmdError.taskNotFound s sug ∧
      CmdError.startConflict ≠ CmdError.wrongStateStart st ∧
      CmdError.completeConflict ≠ CmdError.taskNotFound s sug ∧
      CmdError.completeConflict ≠ CmdError.wrongStateComplete st ∧
      CmdError.failConflict ≠ CmdError.taskNotFound s sug ∧
      CmdError.failConflict ≠ CmdError.wrongStateFail st ∧
      CmdError.retryConflict ≠ CmdError.taskNotFound s sug ∧
      CmdError.retryConflict ≠ CmdError.wrongStateRetry st) := by
  refine ⟨?_, ?_, ?_, ?_, ?_, ?_, ?_, ?_, ?_⟩
  · intro db tid fs ts upd
    refine ⟨?_, transition_task_state_false_frame db tid fs ts upd⟩
    exact taskCondAny_true (l := db.tasks) (p := fun t => t.id = tid ∧ t.state = fs)
  · intro db tid fss ts upd
    refine ⟨?_, transition_from_any_false_frame db tid fss ts upd⟩
    exact taskCondAny_true (l := db.tasks) (p := fun t => t.id = tid ∧ t.state ∈ fss)
  · intro db tid rs arts tok el upd cmp
    refine ⟨?_, complete_task_false_frame db tid rs arts tok el upd cmp⟩
    exact taskCondAny_true (l := db.tasks)
      (p := fun t => t.id = tid ∧ t.state = TaskState.inProgress)
  · intro db tid upd
    refine ⟨?_, retry_task_false_frame db tid upd⟩
    exact taskCondAny_true (l := db.tasks)
      (p := fun t => t.id = tid ∧ t.state = TaskState.failed)
  · intro t now db h
    unfold task.startWrite
    dsimp only
    rw [h, transition_task_state_false_frame db t.id TaskState.pending TaskState.inProgress now h]
    rfl
  · intro t now db h
    unfold task.failWrite
    dsimp only
    rw [h, transition_from_any_false_frame db t.id
      [TaskState.inProgress, TaskState.verifying] TaskState.failed now h]
    rfl
  · intro t now db h
    unfold task.retryWrite
    dsimp only
    rw [h, retry_task_false_frame db t.id now h]
    rfl
  · intro t rs arts tok el now db h
    unfold task.completeWrite
    dsimp only
    rw [h, complete_task_false_frame db t.id rs (arts.getD []) (tok.getD 0) (el.getD 0) now now h]
    rfl
  · intro s sug st
    refine ⟨?_, ?_, ?_, ?_, ?_, ?_, ?_, ?_⟩ <;> intro hc <;> cases hc

theorem conditional_transition_spec_witness :
    (c5Db.transition_task_state "T1" TaskState.pending TaskState.inProgress 5).2 = true :=
  (conditional_transition_spec.1 c5Db "T1" TaskState.pending TaskState.inProgress 5).1.mpr
    ⟨c5Task, List.mem_singleton_self c5Task, rfl, rfl⟩

/-! ## C3: starting a task -/

/-- C3: `start` succeeds only on a task whose contract is set and whose state
is exactly `Pending`; a contract-less task fails with the store untouched and
an error distinct from the wrong-state error; a `Blocked` task fails with an
error carrying its blocker list; every failure leaves the store unchanged. -/
theorem start_spec (task_id : String) (now : Nat) (db db' : Database)
    (r : Except CmdError Unit)
    (h : task.start task_id now db = (db', r)) :
    (r = Except.ok () → ∃ t, db.get_task task_id = some t ∧
        t.contract.isSome ∧ t.state = TaskState.pending) ∧
    (∀ t, db.get_task task_id = some t → t.contract = none →
        db' = db ∧ r = Except.error (CmdError.noContract t.id)) ∧
    (∀ t bb, db.get_task task_id = some t → t.contract.isSome →
        t.state = TaskState.blocked → t.blocked_by = some bb →
        db' = db ∧ r = Except.error (CmdError.taskBlocked bb)) ∧
    (∀ e, r = Except.error e → db' = db) ∧
    (∀ (s : String) (bb : List String) (st : TaskState),
        CmdError.noContract s ≠ CmdError.wrongStateStart st ∧
        CmdError.taskBlocked bb ≠ CmdError.wrongStateStart st) := by
  have hdistinct : ∀ (s : String) (bb : List String) (st : TaskState),
      CmdError.noContract s ≠ CmdError.wrongStateStart st ∧
      CmdError.taskBlocked bb ≠ CmdError.wrongStateStart st := by
    intro s bb st
    constructor
    · intro hc; cases hc
    · intro hc; cases hc
  unfold task.start at h
  cases hg : db.get_task task_id with
  | none =>
      rw [hg] at h
      simp only [Prod.mk.injEq] at h
      obtain ⟨h1, h2⟩ := h
      subst h1; subst h2
      refine ⟨?_, ?_, ?_, ?_, hdistinct⟩
      · intro hok; cases hok
      · intro t ht; cases ht
      · intro t bb ht; cases ht
      · intro e _; rfl
  | some t0 =>
      rw [hg] at h
      dsimp only at h
      by_cases hc : t0.contract.isNone
      · simp only [hc, if_true, Prod.mk.injEq] at h
        obtain ⟨h1, h2⟩ := h
        subst h1; subst h2
        refine ⟨?_, ?_, ?_, ?_, hdistinct⟩
        · intro hok; cases hok
        · intro t ht hct
          cases ht
          exact ⟨rfl, rfl⟩
        · intro t bb ht hct hst hbb
          cases ht
          rw [Option.isNone_iff_eq_none] at hc
          rw [hc] at hct
          cases hct
        · intro e _; rfl
      · have hcs : t0.contract.isSome := by
          cases hco : t0.contract with
          | none => rw [hco] at hc; simp at hc
          | some c => rfl
        rw [if_neg hc] at h
        split at h
        · next bb0 hst hbb =>
            simp only [Prod.mk.injEq] at h
            obtain ⟨h1, h2⟩ := h
            subst h1; subst h2
            refine ⟨?_, ?_, ?_, ?_, hdistinct⟩
            · intro hok; cases hok
            · intro t ht hct
              cases ht
              rw [hct] at hcs
              cases hcs
            · intro t bb' ht _ _ hbb'
              cases ht
              rw [hbb] at hbb'
              cases hbb'
              exact ⟨rfl, rfl⟩
            · intro e _; rfl
        · next hnotblocked =>
            by_cases hp : t0.state = TaskState.pending
            · rw [if_neg (not_not_intro hp)] at h
              unfold task.startWrite at h
              dsimp only at h
              have htrue : (db.transition_task_state t0.id TaskState.pending
                  TaskState.inProgress now).2 = true :=
                taskCondAny_true.mpr ⟨t0, List.mem_of_find?_eq_some hg, rfl, hp⟩
              rw [htrue, if_pos rfl] at h
              simp only [Prod.mk.injEq] at h
              obtain ⟨h1, h2⟩ := h
              subst h1; subst h2
              refine ⟨?_, ?_, ?_, ?_, hdistinct⟩
              · intro _
                exact ⟨t0, rfl, hcs, hp⟩
              · intro t ht hct
                cases ht
                rw [hct] at hcs
                cases hcs
              · intro t bb ht _ hst _
                cases ht
                rw [hp] at hst
                cases hst
              · intro e he; cases he
            · rw [if_pos hp] at h
              simp only [Prod.mk.injEq] at h
              obtain ⟨h1, h2⟩ := h
              subst h1; subst h2
              refine ⟨?_, ?_, ?_, ?_, hdistinct⟩
              · intro hok; cases hok
              · intro t ht hct
                cases ht
                rw [hct] at hcs
                cases hcs
              · intro t bb ht _ hst hbb
                cases ht
                exact (hnotblocked bb hst hbb).elim
              · intro e _; rfl

/-- Witness for `start_spec`: starting the contract-less task leaves the store
unchanged and reports the needs-a-contract error. -/
theorem start_spec_witness :
    (task.start "T1" 9 c3Db).1 = c3Db ∧
    (task.start "T1" 9 c3Db).2 = Except.error (CmdError.noContract c3Task.id) :=
  (start_spec "T1" 9 c3Db (task.start "T1" 9 c3Db).1 (task.start "T1" 9 c3Db).2
    rfl).2.1 c3Task rfl rfl

theorem unblockStep_eq (cid : String) (snap : List Task) (now : Nat)
    (acc : Database × List String) (d : Task) :
    unblockStep cid snap now acc d =
      if shouldUnblock cid snap d then
        (acc.1.update_task { d with state := TaskState.pending, updated_at := now },
         acc.2 ++ [d.id])
      else acc := by
  unfold unblockStep shouldUnblock
  by_cases h1 : d.state = TaskState.blocked
  · rw [if_pos h1]
    cases hbb : d.blocked_by with
    | none => simp [h1]
    | some bb =>
        by_cases h2 : cid ∈ bb
        · by_cases h3 : ∀ x ∈ bb, ∃ t ∈ snap, t.id = x ∧ t.state = TaskState.completed
          · simp [h1, hbb, h2, h3]
          · simp [h1, hbb, h2, h3]
        · simp [h1, hbb, h2]
  · rw [if_neg h1]
    simp [h1]

theorem update_goal_tasks (db : Database) (g : Goal) :
    (db.update_goal g).tasks = db.tasks := rfl

theorem update_task_goals (db : Database) (t : Task) :
    (db.update_task t).goals = db.goals := rfl

theorem unblockPass_goals (cid : String) (snap : List Task) (now : Nat) :
    ∀ (l : List Task) (acc : Database × List String),
      ((l.foldl (unblockStep cid snap now) acc).1).goals = acc.1.goals := by
  intro l
  induction l with
  | nil => intro acc; rfl
  | cons d ds ih =>
      intro acc
      rw [List.foldl_cons, ih, unblockStep_eq]
      by_cases h : shouldUnblock cid snap d
      · rw [if_pos h]; rfl
      · rw [if_neg h]

theorem mem_of_mem_list_tasks {db : Database} {gid : String} {t : Task}
    (h : t ∈ db.list_tasks gid) : t ∈ db.tasks :=
  List.mem_of_mem_filter (mem_sortAscTasks.mp h)

theorem retryCountsFrom_refl (l : List Task) : retryCountsFrom l l :=
  fun t' h => ⟨t', h, rfl, rfl⟩

theorem retryCountsFrom_trans {a b c : List Task}
    (h1 : retryCountsFrom a b) (h2 : retryCountsFrom b c) : retryCountsFrom a c := by
  intro t' ht'
  obtain ⟨u, hu, hid, hrc⟩ := h2 t' ht'
  obtain ⟨v, hv, hid2, hrc2⟩ := h1 u hu
  exact ⟨v, hv, hid2.trans hid, hrc2.trans hrc⟩

theorem retryCountsFrom_map {l : List Task} {g : Task → Task}
    (hg : ∀ t, (g t).id = t.id ∧ (g t).metrics.retry_count = t.metrics.retry_count) :
    retryCountsFrom l (l.map g) := by
  intro t' ht'
  rcases List.mem_map.mp ht' with ⟨u, hu, rfl⟩
  exact ⟨u, hu, (hg u).1.symm, (hg u).2.symm⟩

theorem update_task_retryCounts {ref : List Task} {db0 : Database} {d : Task}
    (h0 : retryCountsFrom ref db0.tasks)
    (hd : ∃ t ∈ ref, t.id = d.id ∧ t.metrics.retry_count = d.metrics.retry_count) :
    retryCountsFrom ref (db0.update_task d).tasks := by
  intro t' ht'
  have htasks : (db0.update_task d).tasks = db0.tasks.map (fun u =>
      if u.id = d.id then { d with id := u.id, created_at := u.created_at } else u) := rfl
  rw [htasks] at ht'
  rcases List.mem_map.mp ht' with ⟨u, hu, rfl⟩
  by_cases hcond : u.id = d.id
  · rw [if_pos hcond]
    obtain ⟨t, htm, hid, hrc⟩ := hd
    exact ⟨t, htm, hid.trans hcond.symm, hrc⟩
  · rw [if_neg hcond]
    exact h0 u hu

theorem unblockStep_retryCounts {ref : List Task} {cid : String} {snap : List Task}
    {now : Nat} {acc : Database × List String} {d : Task}
    (h0 : retryCountsFrom ref acc.1.tasks)
    (hd : ∃ t ∈ ref, t.id = d.id ∧ t.metrics.retry_count = d.metrics.retry_count) :
    retryCountsFrom ref ((unblockStep cid snap now acc d).1).tasks := by
  rw [unblockStep_eq]
  by_cases h : shouldUnblock cid snap d
  · rw [if_pos h]
    exact update_task_retryCounts h0 hd
  · rw [if_neg h]
    exact h0

theorem unblockFold_retryCounts {ref : List Task} {cid : String} {snap : List Task}
    {now : Nat} :
    ∀ (l : List Task) (acc : Database × List String),
      (∀ d ∈ l, ∃ t ∈ ref, t.id = d.id ∧ t.metrics.retry_count = d.metrics.retry_count) →
      retryCountsFrom ref acc.1.tasks →
      retryCountsFrom ref ((l.foldl (unblockStep cid snap now) acc).1).tasks := by
  intro l
  induction l with
  | nil => intro acc _ h0; exact h0
  | cons d ds ih =>
      intro acc hall h0
      rw [List.foldl_cons]
      exact ih _ (fun x hx => hall x (List.mem_cons_of_mem d hx))
        (unblockStep_retryCounts h0 (hall d (List.mem_cons_self d ds)))

theorem transition_retryCounts (db : Database) (tid : String) (fs ts : TaskState)
    (upd : Nat) :
    retryCountsFrom db.tasks ((db.transition_task_state tid fs ts upd).1).tasks :=
  retryCountsFrom_map (fun t => by
    by_cases hc : t.id = tid ∧ t.state = fs
    · rw [if_pos hc]; exact ⟨rfl, rfl⟩
    · rw [if_neg hc]; exact ⟨rfl, rfl⟩)

theorem transition_any_retryCounts (db : Database) (tid : String) (fss : List TaskState)
    (ts : TaskState) (upd : Nat) :
    retryCountsFrom db.tasks ((db.transition_task_state_from_any tid fss ts upd).1).tasks :=
  retryCountsFrom_map (fun t => by
    by_cases hc : t.id = tid ∧ t.state ∈ fss
    · rw [if_pos hc]; exact ⟨rfl, rfl⟩
    · rw [if_neg hc]; exact ⟨rfl, rfl⟩)

theorem complete_task_retryCounts (db : Database) (tid rs : String) (arts : List String)
    (tok el : Int) (upd cmp : Nat) :
    retryCountsFrom db.tasks ((db.complete_task tid rs arts tok el upd cmp).1).tasks :=
  retryCountsFrom_map (fun t => by
    by_cases hc : t.id = tid ∧ t.state = TaskState.inProgress
    · rw [if_pos hc]; exact ⟨rfl, rfl⟩
    · rw [if_neg hc]; exact ⟨rfl, rfl⟩)

theorem start_retryCounts (tid : String) (n : Nat) (db : Database) :
    retryCountsFrom db.tasks ((task.start tid n db).1).tasks := by
  unfold task.start
  cases hg : db.get_task tid with
  | none => exact retryCountsFrom_refl _
  | some t0 =>
      dsimp only
      by_cases hc : t0.contract.isNone
      · rw [if_pos hc]; exact retryCountsFrom_refl _
      · rw [if_neg hc]
        split
        · exact retryCountsFrom_refl _
        · by_cases hp : t0.state ≠ TaskState.pending
          · rw [if_pos hp]; exact retryCountsFrom_refl _
          · rw [if_neg hp]
            unfold task.startWrite
            dsimp only
            by_cases hres : (db.transition_task_state t0.id TaskState.pending
                TaskState.inProgress n).2 = true
            · rw [hres, if_pos rfl]
              exact transition_retryCounts db t0.id TaskState.pending TaskState.inProgress n
            · rw [Bool.not_eq_true] at hres
              rw [hres]
              simp only [Bool.false_eq_true, if_false]
              exact transition_retryCounts db t0.id TaskState.pending TaskState.inProgress n

theorem fail_retryCounts (tid : String) (n : Nat) (db : Database) :
    retryCountsFrom db.tasks ((task.fail tid n db).1).tasks := by
  unfold task.fail
  cases hg : db.get_task tid with
  | none => exact retryCountsFrom_refl _
  | some t0 =>
      dsimp only
      by_cases hs : t0.state ≠ TaskState.inProgress ∧ t0.state ≠ TaskState.verifying
      · rw [if_pos hs]; exact retryCountsFrom_refl _
      · rw [if_neg hs]
        unfold task.failWrite
        dsimp only
        by_cases hres : (db.transition_task_state_from_any t0.id
            [TaskState.inProgress, TaskState.verifying] TaskState.failed n).2 = true
        · rw [hres, if_pos rfl]
          exact transition_any_retryCounts db t0.id _ TaskState.failed n
        · rw [Bool.not_eq_true] at hres
          rw [hres]
          simp only [Bool.false_eq_true, if_false]
          exact transition_any_retryCounts db t0.id _ TaskState.failed n

theorem completeCascade_retryCounts (tid : String) (n : Nat) (db1 : Database) :
    retryCountsFrom db1.tasks ((task.completeCascade tid n db1).1).tasks := by
  unfold task.completeCascade
  cases hg : db1.get_task tid with
  | none => exact retryCountsFrom_refl _
  | some t1 =>
      dsimp only
      cases hgo : db1.get_goal t1.goal_id with
      | none => exact retryCountsFrom_refl _
      | some goal0 =>
          dsimp only
          rw [update_goal_tasks]
          exact unblockFold_retryCounts (db1.list_tasks goal0.id) (db1, [])
            (fun d hd => ⟨d, mem_of_mem_list_tasks hd, rfl, rfl⟩)
            (retryCountsFrom_refl _)

theorem complete_retryCounts (tid rs : String) (arts : Option (List String))
    (tok el : Option Int) (n : Nat) (db : Database) :
    retryCountsFrom db.tasks ((task.complete tid rs arts tok el n db).1).tasks := by
  unfold task.complete
  cases hg : db.get_task tid with
  | none => exact retryCountsFrom_refl _
  | some t0 =>
      dsimp only
      by_cases hs : t0.state ≠ TaskState.inProgress
      · rw [if_pos hs]; exact retryCountsFrom_refl _
      · rw [if_neg hs]
        unfold task.completeWrite
        dsimp only
        have hct := complete_task_retryCounts db t0.id rs (arts.getD []) (tok.getD 0)
          (el.getD 0) n n
        by_cases hres : (db.complete_task t0.id rs (arts.getD []) (tok.getD 0)
            (el.getD 0) n n).2 = true
        · rw [hres, if_pos rfl]
          exact retryCountsFrom_trans hct (completeCascade_retryCounts t0.id n _)
        · rw [Bool.not_eq_true] at hres
          rw [hres]
          simp only [Bool.false_eq_true, if_false]
          exact hct

/-! ## C6: retrying a task -/

theorem get_task_retry (db : Database) (tid : String) (now : Nat) :
    (db.retry_task tid now).1.get_task tid =
      (db.get_task tid).map (fun t =>
        if t.id = tid ∧ t.state = TaskState.failed then
          { t with state := TaskState.inProgress,
                   metrics := { t.metrics with retry_count := t.metrics.retry_count + 1 },
                   updated_at := now }
        else t) := by
  unfold Database.retry_task Database.get_task
  exact find?_map_congr db.tasks _ _ (fun a => by
    by_cases hc : a.id = tid ∧ a.state = TaskState.failed
    · rw [if_pos hc]
    · rw [if_neg hc])

/-- C6: `retry` succeeds only on a `Failed` task, and a success moves the task
to `InProgress` bumping `updated_at` and incrementing `retry_count` by exactly
1; retry from any other state errors with the store unchanged; and no other
lifecycle command (`start`, `fail`, `complete` with its cascade) ever changes
any task's `retry_count`. -/
theorem retry_spec (task_id : String) (now : Nat) (db db' : Database)
    (r : Except CmdError Task)
    (h : task.retry task_id now db = (db', r)) :
    (∀ t', r = Except.ok t' → ∃ t, db.get_task task_id = some t ∧
        t.state = TaskState.failed ∧
        t' = { t with
               state := TaskState.inProgress, updated_at := now,
               metrics := { t.metrics with retry_count := t.metrics.retry_count + 1 } }) ∧
    (∀ t, db.get_task task_id = some t → t.state ≠ TaskState.failed →
        db' = db ∧ r = Except.error (CmdError.wrongStateRetry t.state)) ∧
    (∀ e, r = Except.error e → db' = db) ∧
    (∀ (tid2 : String) (n2 : Nat) (db2 : Database),
        retryCountsFrom db2.tasks ((task.start tid2 n2 db2).1).tasks) ∧
    (∀ (tid2 : String) (n2 : Nat) (db2 : Database),
        retryCountsFrom db2.tasks ((task.fail tid2 n2 db2).1).tasks) ∧
    (∀ (tid2 rs : String) (arts : Option (List String)) (tok el : Option Int) (n2 : Nat)
        (db2 : Database),
        retryCountsFrom db2.tasks ((task.complete tid2 rs arts tok el n2 db2).1).tasks) := by
  unfold task.retry at h
  cases hg : db.get_task task_id with
  | none =>
      rw [hg] at h
      simp only [Prod.mk.injEq] at h
      obtain ⟨h1, h2⟩ := h
      subst h1; subst h2
      refine ⟨?_, ?_, ?_, start_retryCounts, fail_retryCounts, complete_retryCounts⟩
      · intro t' ht'; cases ht'
      · intro t ht; cases ht
      · intro e _; rfl
  | some t0 =>
      rw [hg] at h
      dsimp only at h
      have hg' : db.tasks.find? (fun t => decide (t.id = task_id)) = some t0 := hg
      have hid : t0.id = task_id := by
        have hp := List.find?_some hg'
        simpa using hp
      by_cases hs : t0.state ≠ TaskState.failed
      · rw [if_pos hs] at h
        simp only [Prod.mk.injEq] at h
        obtain ⟨h1, h2⟩ := h
        subst h1; subst h2
        refine ⟨?_, ?_, ?_, start_retryCounts, fail_retryCounts, complete_retryCounts⟩
        · intro t' ht'; cases ht'
        · intro t ht hne
          cases ht
          exact ⟨rfl, rfl⟩
        · intro e _; rfl
      · rw [if_neg hs] at h
        rw [not_not] at hs
        unfold task.retryWrite at h
        dsimp only at h
        have htrue : (db.retry_task t0.id now).2 = true :=
          taskCondAny_true.mpr ⟨t0, List.mem_of_find?_eq_some hg', rfl, hs⟩
        rw [htrue, if_pos rfl] at h
        have hre : (db.retry_task t0.id now).1.get_task t0.id =
            some { t0 with
                   state := TaskState.inProgress,
                   metrics := { t0.metrics with retry_count := t0.metrics.retry_count + 1 },
                   updated_at := now } := by
          rw [get_task_retry, hid, hg]
          simp only [Option.map_some']
          rw [if_pos ⟨hid, hs⟩, hid]
        rw [hre] at h
        dsimp only at h
        simp only [Prod.mk.injEq] at h
        obtain ⟨h1, h2⟩ := h
        subst h1; subst h2
        refine ⟨?_, ?_, ?_, start_retryCounts, fail_retryCounts, complete_retryCounts⟩
        · intro t' ht'
          cases ht'
          exact ⟨t0, rfl, hs, rfl⟩
        · intro t ht hne
          cases ht
          exact absurd hs hne
        · intro e he; cases he

/-- Witness for `retry_spec`: a concrete successful retry, with `retry_count`
going from 0 to exactly 1 and the state to `InProgress`. -/
theorem retry_spec_witness :
    ∃ t, c6Db.get_task "T1" = some t ∧ t.state = TaskState.failed ∧
      ({ id := "T1", goal_id := "G1", description := "d", contract := none,
         state := TaskState.inProgress, blocked_by := none, result := none,
         created_at := 0, updated_at := 7, completed_at := none,
         metrics := { tokens := 0, elapsed_ms := 0, retry_count := 1 } } : Task)
        = { t with
            state := TaskState.inProgress, updated_at := 7,
            metrics := { t.metrics with retry_count := t.metrics.retry_count + 1 } } :=
  (retry_spec "T1" 7 c6Db (task.retry "T1" 7 c6Db).1 (task.retry "T1" 7 c6Db).2 rfl).1
    _ rfl

theorem forall₂_map_self {α : Type} (R : α → α → Prop) (f : α → α) (l : List α)
    (h : ∀ a ∈ l, R a (f a)) : List.Forall₂ R l (l.map f) := by
  induction l with
  | nil => exact List.Forall₂.nil
  | cons a t ih =>
      exact List.Forall₂.cons (h a (List.mem_cons_self a t))
        (ih fun x hx => h x (List.mem_cons_of_mem a hx))

/-- C10: the conditional updates are frame-preserving.  `transition_task_state`
and `transition_task_state_from_any` leave the goal table untouched and change
each task row either not at all or — when it has the expected id and prior
state — only in `state` and `updated_at`; `retry_task` additionally changes
only `retry_count` (by exactly `+ 1`); a failed guard changes nothing. -/
theorem conditional_update_frame :
    (∀ (db : Database) (tid : String) (fs ts : TaskState) (upd : Nat),
      ((db.transition_task_state tid fs ts upd).1).goals = db.goals ∧
      List.Forall₂ (fun t u => sameTaskCore t u ∧ u.metrics = t.metrics ∧
          ((u.state = t.state ∧ u.updated_at = t.updated_at) ∨
           (t.id = tid ∧ t.state = fs ∧ u.state = ts ∧ u.updated_at = upd)))
        db.tasks ((db.transition_task_state tid fs ts upd).1).tasks ∧
      ((db.transition_task_state tid fs ts upd).2 = false →
        (db.transition_task_state tid fs ts upd).1 = db)) ∧
    (∀ (db : Database) (tid : String) (fss : List TaskState) (ts : TaskState) (upd : Nat),
      ((db.transition_task_state_from_any tid fss ts upd).1).goals = db.goals ∧
      List.Forall₂ (fun t u => sameTaskCore t u ∧ u.metrics = t.metrics ∧
          ((u.state = t.state ∧ u.updated_at = t.updated_at) ∨
           (t.id = tid ∧ t.state ∈ fss ∧ u.state = ts ∧ u.updated_at = upd)))
        db.tasks ((db.transition_task_state_from_any tid fss ts upd).1).tasks ∧
      ((db.transition_task_state_from_any tid fss ts upd).2 = false →
        (db.transition_task_state_from_any tid fss ts upd).1 = db)) ∧
    (∀ (db : Database) (tid : String) (upd : Nat),
      ((db.retry_task tid upd).1).goals = db.goals ∧
      List.Forall₂ (fun t u => sameTaskCore t u ∧
          u.metrics.tokens = t.metrics.tokens ∧
          u.metrics.elapsed_ms = t.metrics.elapsed_ms ∧
          ((u.state = t.state ∧ u.updated_at = t.updated_at ∧
            u.metrics.retry_count = t.metrics.retry_count) ∨
           (t.id = tid ∧ t.state = TaskState.failed ∧ u.state = TaskState.inProgress ∧
            u.updated_at = upd ∧ u.metrics.retry_count = t.metrics.retry_count + 1)))
        db.tasks ((db.retry_task tid upd).1).tasks ∧
      ((db.retry_task tid upd).2 = false → (db.retry_task tid upd).1 = db)) := by
  refine ⟨?_, ?_, ?_⟩
  · intro db tid fs ts upd
    refine ⟨rfl, ?_, transition_task_state_false_frame db tid fs ts upd⟩
    exact forall₂_map_self _ _ db.tasks (fun t _ => by
      by_cases hc : t.id = tid ∧ t.state = fs
      · rw [if_pos hc]
        exact ⟨⟨rfl, rfl, rfl, rfl, rfl, rfl, rfl, rfl⟩, rfl,
          Or.inr ⟨hc.1, hc.2, rfl, rfl⟩⟩
      · rw [if_neg hc]
        exact ⟨⟨rfl, rfl, rfl, rfl, rfl, rfl, rfl, rfl⟩, rfl, Or.inl ⟨rfl, rfl⟩⟩)
  · intro db tid fss ts upd
    refine ⟨rfl, ?_, transition_from_any_false_frame db tid fss ts upd⟩
    exact forall₂_map_self _ _ db.tasks (fun t _ => by
      by_cases hc : t.id = tid ∧ t.state ∈ fss
      · rw [if_pos hc]
        exact ⟨⟨rfl, rfl, rfl, rfl, rfl, rfl, rfl, rfl⟩, rfl,
          Or.inr ⟨hc.1, hc.2, rfl, rfl⟩⟩
      · rw [if_neg hc]
        exact ⟨⟨rfl, rfl, rfl, rfl, rfl, rfl, rfl, rfl⟩, rfl, Or.inl ⟨rfl, rfl⟩⟩)
  · intro db tid upd
    refine ⟨rfl, ?_, retry_task_false_frame db tid upd⟩
    exact forall₂_map_self _ _ db.tasks (fun t _ => by
      by_cases hc : t.id = tid ∧ t.state = TaskState.failed
      · rw [if_pos hc]
        exact ⟨⟨rfl, rfl, rfl, rfl, rfl, rfl, rfl, rfl⟩, rfl, rfl,
          Or.inr ⟨hc.1, hc.2, rfl, rfl, rfl⟩⟩
      · rw [if_neg hc]
        exact ⟨⟨rfl, rfl, rfl, rfl, rfl, rfl, rfl, rfl⟩, rfl, rfl,
          Or.inl ⟨rfl, rfl, rfl⟩⟩)

/-- Witness for `conditional_update_frame`: a failed `retry_task` guard leaves
the (empty) store exactly unchanged. -/
theorem conditional_update_frame_witness :
    (c10Db.retry_task "T" 3).1 = c10Db :=
  (conditional_update_frame.2.2 c10Db "T" 3).2.2 rfl

/-! ## Row-lookup lemmas for the cascade (toward C1, C2) -/

theorem get_task_update_task (db : Database) (d : Task) (x : String) :
    (db.update_task d).get_task x =
      (db.get_task x).map (fun u =>
        if u.id = d.id then { d with id := u.id, created_at := u.created_at } else u) := by
  unfold Database.update_task Database.get_task
  exact find?_map_congr db.tasks _ _ (fun a => by
    by_cases hc : a.id = d.id
    · rw [if_pos hc]
    · rw [if_neg hc])

theorem get_task_update_task_ne {db : Database} {d : Task} {x : String}
    (hne : d.id ≠ x) : (db.update_task d).get_task x = db.get_task x := by
  rw [get_task_update_task]
  cases hfind : db.get_task x with
  | none => rfl
  | some u =>
      have hu : u.id = x := by
        have hp := List.find?_some (show db.tasks.find? (fun t => decide (t.id = x)) = some u
          from hfind)
        simpa using hp
      simp only [Option.map_some']
      rw [if_neg (fun he : u.id = d.id => hne (he ▸ hu.symm ▸ rfl))]

theorem get_task_complete_task (db : Database) (tid rs : String) (arts : List String)
    (tok el : Int) (upd cmp : Nat) (x : String) :
    (db.complete_task tid rs arts tok el upd cmp).1.get_task x =
      (db.get_task x).map (fun t =>
        if t.id = tid ∧ t.state = TaskState.inProgress then
          { t with state := TaskState.completed,
                   result := some { summary := rs, artifacts := arts },
                   metrics := { t.metrics with tokens := tok, elapsed_ms := el },
                   updated_at := upd,
                   completed_at := some cmp }
        else t) := by
  unfold Database.complete_task Database.get_task
  exact find?_map_congr db.tasks _ _ (fun a => by
    by_cases hc : a.id = tid ∧ a.state = TaskState.inProgress
    · rw [if_pos hc]
    · rw [if_neg hc])

theorem complete_task_goals (db : Database) (tid rs : String) (arts : List String)
    (tok el : Int) (upd cmp : Nat) :
    (db.complete_task tid rs arts tok el upd cmp).1.goals = db.goals := rfl

theorem complete_task_ids (db : Database) (tid rs : String) (arts : List String)
    (tok el : Int) (upd cmp : Nat) :
    ((db.complete_task tid rs arts tok el upd cmp).1.tasks).map Task.id
      = db.tasks.map Task.id := by
  have htasks : (db.complete_task tid rs arts tok el upd cmp).1.tasks
      = db.tasks.map (fun t =>
        if t.id = tid ∧ t.state = TaskState.inProgress then
          { t with state := TaskState.completed,
                   result := some { summary := rs, artifacts := arts },
                   metrics := { t.metrics with tokens := tok, elapsed_ms := el },
                   updated_at := upd,
                   completed_at := some cmp }
        else t) := rfl
  rw [htasks, List.map_map]
  apply List.map_congr_left
  intro a _
  by_cases hc : a.id = tid ∧ a.state = TaskState.inProgress
  · simp [hc]
  · simp [hc]

theorem mem_list_tasks {db : Database} {gid : String} {t : Task} :
    t ∈ db.list_tasks gid ↔ t ∈ db.tasks ∧ t.goal_id = gid := by
  unfold Database.list_tasks
  rw [mem_sortAscTasks, List.mem_filter]
  simp

theorem list_tasks_ids_nodup {db : Database} {gid : String}
    (h : (db.tasks.map Task.id).Nodup) : ((db.list_tasks gid).map Task.id).Nodup := by
  unfold Database.list_tasks
  have hperm : ((sortAscTasks (db.tasks.filter (fun t => decide (t.goal_id = gid)))).map
        Task.id).Perm ((db.tasks.filter (fun t => decide (t.goal_id = gid))).map Task.id) :=
    (sortAscTasks_perm _).map Task.id
  refine hperm.nodup_iff.mpr ?_
  exact List.Nodup.sublist ((List.filter_sublist db.tasks).map Task.id) h

theorem unblockFold_get_task_untouched (cid : String) (snap : List Task) (now : Nat) :
    ∀ (l : List Task) (acc : Database × List String) (x : String),
      (∀ d ∈ l, shouldUnblock cid snap d = true → d.id ≠ x) →
      ((l.foldl (unblockStep cid snap now) acc).1).get_task x = acc.1.get_task x := by
  intro l
  induction l with
  | nil => intro acc x _; rfl
  | cons d ds ih =>
      intro acc x hl
      rw [List.foldl_cons, unblockStep_eq]
      by_cases h : shouldUnblock cid snap d
      · rw [if_pos h]
        rw [ih _ x (fun d2 hd2 hs2 => hl d2 (List.mem_cons_of_mem d hd2) hs2)]
        exact get_task_update_task_ne (hl d (List.mem_cons_self d ds) h)
      · rw [if_neg h]
        exact ih _ x (fun d2 hd2 hs2 => hl d2 (List.mem_cons_of_mem d hd2) hs2)

theorem unblockFold_get_task (cid : String) (snap : List Task) (now : Nat) :
    ∀ (l : List Task) (acc : Database × List String) (D : Task),
      (l.map Task.id).Nodup → D ∈ l →
      acc.1.get_task D.id = some D →
      ((l.foldl (unblockStep cid snap now) acc).1).get_task D.id =
        (if shouldUnblock cid snap D then
          some { D with state := TaskState.pending, updated_at := now }
        else some D) := by
  intro l
  induction l with
  | nil => intro acc D _ hD _; cases hD
  | cons d ds ih =>
      intro acc D hnodup hD hacc
      rw [List.foldl_cons, unblockStep_eq]
      rcases List.mem_cons.mp hD with rfl | hDin
      · have hnotin : ∀ d2 ∈ ds, shouldUnblock cid snap d2 = true → d2.id ≠ D.id :=
          fun d2 hd2 _ he =>
            (List.nodup_cons.mp hnodup).1 (he ▸ List.mem_map_of_mem Task.id hd2)
        by_cases h : shouldUnblock cid snap D
        · rw [if_pos h, if_pos h]
          rw [unblockFold_get_task_untouched cid snap now ds _ D.id hnotin]
          have hupd := get_task_update_task acc.1
            { D with state := TaskState.pending, updated_at := now } D.id
          rw [hupd, hacc]
          simp
        · rw [if_neg h, if_neg h]
          rw [unblockFold_get_task_untouched cid snap now ds _ D.id hnotin]
          exact hacc
      · have hdne : d.id ≠ D.id := fun he =>
          (List.nodup_cons.mp hnodup).1 (he ▸ List.mem_map_of_mem Task.id hDin)
        by_cases h : shouldUnblock cid snap d
        · rw [if_pos h]
          refine ih _ D (List.nodup_cons.mp hnodup).2 hDin ?_
          rw [get_task_update_task_ne
            (show ({ d with state := TaskState.pending, updated_at := now } : Task).id ≠ D.id
              from hdne)]
          exact hacc
        · rw [if_neg h]
          exact ih _ D (List.nodup_cons.mp hnodup).2 hDin hacc

theorem unblockPass_snd (cid : String) (snap : List Task) (now : Nat) :
    ∀ (l : List Task) (db0 : Database) (u0 : List String),
      (l.foldl (unblockStep cid snap now) (db0, u0)).2 =
        u0 ++ (l.filter (shouldUnblock cid snap)).map (fun d => d.id) := by
  intro l
  induction l with
  | nil => intro db0 u0; simp
  | cons d ds ih =>
      intro db0 u0
      rw [List.foldl_cons, unblockStep_eq]
      by_cases h : shouldUnblock cid snap d
      · rw [if_pos h]
        rw [ih]
        simp [List.filter_cons, h]
      · rw [if_neg h]
        rw [ih]
        simp [List.filter_cons, h]

theorem get_goal_update_goal (db : Database) (g : Goal) (x : String) :
    (db.update_goal g).get_goal x =
      (db.get_goal x).map (fun u =>
        if u.id = g.id then { g with id := u.id, created_at := u.created_at } else u) := by
  unfold Database.update_goal Database.get_goal
  exact find?_map_congr db.goals _ _ (fun a => by
    by_cases hc : a.id = g.id
    · rw [if_pos hc]
    · rw [if_neg hc])

/-- A successful `complete` decomposes into: the task was fetched
`InProgress`, the conditional completion write fired, and the cascade ran on
the written store. -/
theorem complete_ok_elim (tid rs : String) (arts : Option (List String))
    (tok el : Option Int) (now : Nat) (db db' : Database) (task1 : Task)
    (ub : List String)
    (h : task.complete tid rs arts tok el now db = (db', Except.ok (task1, ub))) :
    ∃ task0 : Task,
      db.get_task tid = some task0 ∧ task0.state = TaskState.inProgress ∧
      (db.complete_task task0.id rs (arts.getD []) (tok.getD 0) (el.getD 0) now now).2
        = true ∧
      task.completeCascade task0.id now
        (db.complete_task task0.id rs (arts.getD []) (tok.getD 0) (el.getD 0) now now).1
        = (db', Except.ok (task1, ub)) := by
  unfold task.complete at h
  cases hg : db.get_task tid with
  | none =>
      rw [hg] at h
      simp only [Prod.mk.injEq] at h
      cases h.2
  | some t0 =>
      rw [hg] at h
      dsimp only at h
      by_cases hs : t0.state ≠ TaskState.inProgress
      · rw [if_pos hs] at h
        simp only [Prod.mk.injEq] at h
        cases h.2
      · rw [if_neg hs] at h
        rw [not_not] at hs
        unfold task.completeWrite at h
        dsimp only at h
        by_cases hres : (db.complete_task t0.id rs (arts.getD []) (tok.getD 0)
            (el.getD 0) now now).2 = true
        · rw [hres, if_pos rfl] at h
          exact ⟨t0, rfl, hs, hres, h⟩
        · rw [Bool.not_eq_true] at hres
          rw [hres] at h
          simp only [Bool.false_eq_true, if_false, Prod.mk.injEq] at h
          cases h.2

/-- A successful cascade decomposes into: the completed task and its goal were
re-fetched, the unblocking pass ran over the snapshot, and the rolled-up goal
was written back. -/
theorem completeCascade_ok_elim (tid : String) (now : Nat) (db1 db' : Database)
    (task1 : Task) (ub : List String)
    (h : task.completeCascade tid now db1 = (db', Except.ok (task1, ub))) :
    db1.get_task tid = some task1 ∧
    ∃ goal0, db1.get_goal task1.goal_id = some goal0 ∧
      ub = (unblockPass task1.id (db1.list_tasks goal0.id) now db1).2 ∧
      db' = ((unblockPass task1.id (db1.list_tasks goal0.id) now db1).1).update_goal
        (goalRollup { goal0 with updated_at := now }
          (((unblockPass task1.id (db1.list_tasks goal0.id) now db1).1).list_tasks
            goal0.id) now) := by
  unfold task.completeCascade at h
  cases hg : db1.get_task tid with
  | none =>
      rw [hg] at h
      simp only [Prod.mk.injEq] at h
      cases h.2
  | some t1 =>
      rw [hg] at h
      dsimp only at h
      cases hgo : db1.get_goal t1.goal_id with
      | none =>
          rw [hgo] at h
          simp only [Prod.mk.injEq] at h
          cases h.2
      | some g0 =>
          rw [hgo] at h
          dsimp only at h
          simp only [Prod.mk.injEq] at h
          obtain ⟨h1, h2⟩ := h
          cases h2
          exact ⟨rfl, g0, hgo, rfl, h1.symm⟩

theorem get_task_update_goal (db : Database) (g : Goal) (x : String) :
    (db.update_goal g).get_task x = db.get_task x := rfl

theorem get_goal_unblockPass (cid : String) (snap : List Task) (now : Nat)
    (db0 : Database) (x : String) :
    ((unblockPass cid snap now db0).1).get_goal x = db0.get_goal x := by
  unfold Database.get_goal
  exact congrArg (fun l => List.find? (fun g => decide (g.id = x)) l)
    (unblockPass_goals cid snap now snap (db0, []))

/-! ## C1: the unblocking pass of a completion -/

/-- C1: after task `T` completes successfully, a task `D` of the same goal
that was `Blocked` with `T`'s id among its blockers is reported unblocked
exactly when *every* id in its `blocked_by` resolves to a `Completed` task in
the post-completion snapshot; in that case its stored row becomes `Pending`
(with `updated_at` bumped), and otherwise its row is unchanged (still
`Blocked`). -/
theorem complete_unblock_spec (task_id result_summary : String)
    (artifacts : Option (List String)) (tokens elapsed : Option Int) (now : Nat)
    (db db' : Database) (task1 : Task) (unblocked : List String)
    (h : task.complete task_id result_summary artifacts tokens elapsed now db
          = (db', Except.ok (task1, unblocked)))
    (hnodup : (db.tasks.map Task.id).Nodup)
    (D : Task) (hD : D ∈ db.tasks) (hDst : D.state = TaskState.blocked)
    (hDgoal : D.goal_id = task1.goal_id) (bb : List String)
    (hbb : D.blocked_by = some bb) (htid : task1.id ∈ bb) :
    (D.id ∈ unblocked ↔
        ∀ b ∈ bb, ∃ t ∈ ((db.complete_task task_id result_summary (artifacts.getD [])
            (tokens.getD 0) (elapsed.getD 0) now now).1).list_tasks task1.goal_id,
          t.id = b ∧ t.state = TaskState.completed) ∧
    (D.id ∈ unblocked →
        db'.get_task D.id = some { D with state := TaskState.pending, updated_at := now }) ∧
    (D.id ∉ unblocked → db'.get_task D.id = some D) := by
  obtain ⟨task0, hg0, hst0, hres, hcas⟩ := complete_ok_elim task_id result_summary
    artifacts tokens elapsed now db db' task1 unblocked h
  have htid0 : task0.id = task_id := by
    have hp := List.find?_some (show db.tasks.find? (fun t => decide (t.id = task_id))
      = some task0 from hg0)
    simpa using hp
  rw [htid0] at hres hcas
  obtain ⟨htask1, goal0, hgo, hub, hdb'⟩ := completeCascade_ok_elim task_id now _ db'
    task1 unblocked hcas
  have hgid : goal0.id = task1.goal_id := by
    have hp := List.find?_some (show
      ((db.complete_task task_id result_summary (artifacts.getD []) (tokens.getD 0)
        (elapsed.getD 0) now now).1).goals.find? (fun g => decide (g.id = task1.goal_id))
      = some goal0 from hgo)
    simpa using hp
  -- the post-completion snapshot, as it appears in the eliminated cascade
  set db1 := (db.complete_task task_id result_summary (artifacts.getD [])
    (tokens.getD 0) (elapsed.getD 0) now now).1 with hdb1
  set snap := db1.list_tasks goal0.id with hsnap
  have hsnap' : db1.list_tasks task1.goal_id = snap := by rw [hsnap, hgid]
  -- D's row survives the completion write unchanged
  have hDdb : db.get_task D.id = some D := find?_id_of_nodup db.tasks hnodup hD
  have hDdb1 : db1.get_task D.id = some D := by
    rw [hdb1, get_task_complete_task, hDdb]
    simp only [Option.map_some']
    rw [if_neg (fun hc : D.id = task_id ∧ D.state = TaskState.inProgress => by
      rw [hDst] at hc; cases hc.2)]
  have hDdb1mem : D ∈ db1.tasks :=
    List.mem_of_find?_eq_some (show db1.tasks.find? (fun t => decide (t.id = D.id))
      = some D from hDdb1)
  have hDsnap : D ∈ snap := by
    rw [hsnap]
    exact mem_list_tasks.mpr ⟨hDdb1mem, hDgoal.trans hgid.symm⟩
  have hsnapnodup : (snap.map Task.id).Nodup := by
    rw [hsnap]
    apply list_tasks_ids_nodup
    rw [hdb1, complete_task_ids]
    exact hnodup
  -- the reported unblocked list is the filtered snapshot
  have hub' : unblocked = (snap.filter (shouldUnblock task1.id snap)).map (fun d => d.id) := by
    rw [hub]
    unfold unblockPass
    rw [unblockPass_snd]
    simp
  have hmem : D.id ∈ unblocked ↔ shouldUnblock task1.id snap D = true := by
    rw [hub']
    constructor
    · intro hin
      rcases List.mem_map.mp hin with ⟨d, hd, hdid⟩
      rcases List.mem_filter.mp hd with ⟨hdmem, hdsu⟩
      have : d = D := List.inj_on_of_nodup_map hsnapnodup hdmem hDsnap hdid
      rw [← this]
      exact hdsu
    · intro hsu
      exact List.mem_map.mpr ⟨D, List.mem_filter.mpr ⟨hDsnap, hsu⟩, rfl⟩
  have hsu_iff : shouldUnblock task1.id snap D = true ↔
      ∀ b ∈ bb, ∃ t ∈ snap, t.id = b ∧ t.state = TaskState.completed := by
    unfold shouldUnblock
    rw [hbb]
    simp [hDst, htid]
  -- the final row for D
  have hrow : db'.get_task D.id =
      (if shouldUnblock task1.id snap D then
        some { D with state := TaskState.pending, updated_at := now }
      else some D) := by
    rw [hdb', get_task_update_goal]
    exact unblockFold_get_task task1.id snap now snap (db1, []) D hsnapnodup hDsnap hDdb1
  refine ⟨by rw [hmem, hsu_iff, hsnap'], ?_, ?_⟩
  · intro hin
    rw [hrow, if_pos (hmem.mp hin)]
  · intro hnin
    rw [hrow, if_neg (fun hsu => hnin (hmem.mpr hsu))]

/-- Witness for `complete_unblock_spec`: completing the sole blocker turns the
dependent task `Pending` in the store. -/
theorem complete_unblock_spec_witness :
    (task.complete "T3" "done" none none none 5 c1Db).1.get_task "T4"
      = some { c1Dep with state := TaskState.pending, updated_at := 5 } := by
  have h := complete_unblock_spec "T3" "done" none none none 5 c1Db
    (task.complete "T3" "done" none none none 5 c1Db).1 c1Task1 ["T4"] rfl (by decide)
    c1Dep (by decide) rfl rfl ["T3"] rfl (by decide)
  exact h.2.1 (by decide)

/-! ## C2: the goal rollup of a completion -/

theorem list_tasks_update_goal (db : Database) (g : Goal) (x : String) :
    (db.update_goal g).list_tasks x = db.list_tasks x := rfl

theorem goalRollup_id (g : Goal) (ts : List Task) (n : Nat) :
    (goalRollup g ts n).id = g.id := by
  unfold goalRollup
  dsimp only
  split
  · rfl
  · split
    · rfl
    · rfl

theorem get_goal_update_goal_self {db : Database} {g0 g : Goal} {x : String}
    (hfind : db.get_goal x = some g0) (hid : g.id = g0.id) :
    (db.update_goal g).get_goal x = some { g with id := g0.id, created_at := g0.created_at } := by
  rw [get_goal_update_goal, hfind]
  simp only [Option.map_some']
  rw [if_pos hid.symm]

/-- C2: after the unblocking pass, the rollup is computed from the re-fetched
task list of the goal: if every task is `Completed` the goal is stored
`Completed` with `completed_at` stamped `now`; otherwise, if any task is
`Failed`, the goal is stored `Failed` (its `completed_at` untouched);
otherwise only `updated_at` changes — the all-completed check short-circuits
before the any-failed check. -/
theorem complete_rollup_spec (task_id result_summary : String)
    (artifacts : Option (List String)) (tokens elapsed : Option Int) (now : Nat)
    (db db' : Database) (task1 : Task) (unblocked : List String)
    (h : task.complete task_id result_summary artifacts tokens elapsed now db
          = (db', Except.ok (task1, unblocked))) :
    ∃ goal0, db.get_goal task1.goal_id = some goal0 ∧
    ((∀ t ∈ db'.list_tasks task1.goal_id, t.state = TaskState.completed) →
        db'.get_goal task1.goal_id = some { goal0 with
          state := GoalState.completed, updated_at := now, completed_at := some now }) ∧
    ((¬ ∀ t ∈ db'.list_tasks task1.goal_id, t.state = TaskState.completed) →
      (∃ t ∈ db'.list_tasks task1.goal_id, t.state = TaskState.failed) →
        db'.get_goal task1.goal_id = some { goal0 with
          state := GoalState.failed, updated_at := now }) ∧
    ((¬ ∀ t ∈ db'.list_tasks task1.goal_id, t.state = TaskState.completed) →
      (¬ ∃ t ∈ db'.list_tasks task1.goal_id, t.state = TaskState.failed) →
        db'.get_goal task1.goal_id = some { goal0 with updated_at := now }) := by
  obtain ⟨task0, hg0, hst0, hres, hcas⟩ := complete_ok_elim task_id result_summary
    artifacts tokens elapsed now db db' task1 unblocked h
  have htid0 : task0.id = task_id := by
    have hp := List.find?_some (show db.tasks.find? (fun t => decide (t.id = task_id))
      = some task0 from hg0)
    simpa using hp
  rw [htid0] at hres hcas
  obtain ⟨htask1, goal0, hgo, hub, hdb'⟩ := completeCascade_ok_elim task_id now _ db'
    task1 unblocked hcas
  have hgid : goal0.id = task1.goal_id := by
    have hp := List.find?_some (show
      ((db.complete_task task_id result_summary (artifacts.getD []) (tokens.getD 0)
        (elapsed.getD 0) now now).1).goals.find? (fun g => decide (g.id = task1.goal_id))
      = some goal0 from hgo)
    simpa using hp
  set db1 := (db.complete_task task_id result_summary (artifacts.getD [])
    (tokens.getD 0) (elapsed.getD 0) now now).1 with hdb1
  set res1 := (unblockPass task1.id (db1.list_tasks goal0.id) now db1).1 with hres1
  have hls : db'.list_tasks task1.goal_id = res1.list_tasks goal0.id := by
    rw [hdb', list_tasks_update_goal, ← hgid]
  have hfind1 : res1.get_goal task1.goal_id = some goal0 := by
    rw [hres1, get_goal_unblockPass]
    exact hgo
  have hget : db'.get_goal task1.goal_id =
      some { goalRollup { goal0 with updated_at := now } (res1.list_tasks goal0.id) now
             with id := goal0.id, created_at := goal0.created_at } := by
    rw [hdb']
    exact get_goal_update_goal_self hfind1 (goalRollup_id _ _ _)
  refine ⟨goal0, hgo, ?_, ?_, ?_⟩
  · intro hall
    rw [hls] at hall
    have hb : (res1.list_tasks goal0.id).all
        (fun t => decide (t.state = TaskState.completed)) = true := by
      rw [List.all_eq_true]
      intro t ht
      exact decide_eq_true (hall t ht)
    unfold goalRollup at hget
    dsimp only at hget
    rw [hb] at hget
    simp only [if_true] at hget
    exact hget
  · intro hnall hany
    rw [hls] at hnall hany
    have hb : ((res1.list_tasks goal0.id).all
        (fun t => decide (t.state = TaskState.completed))) = false := by
      rw [← Bool.not_eq_true, List.all_eq_true]
      intro hcontra
      exact hnall (fun t ht => of_decide_eq_true (hcontra t ht))
    have ha : ((res1.list_tasks goal0.id).any
        (fun t => decide (t.state = TaskState.failed))) = true := by
      rw [List.any_eq_true]
      obtain ⟨t, ht, hts⟩ := hany
      exact ⟨t, ht, decide_eq_true hts⟩
    unfold goalRollup at hget
    dsimp only at hget
    rw [hb, ha] at hget
    simp only [Bool.false_eq_true, if_false, if_true] at hget
    exact hget
  · intro hnall hnany
    rw [hls] at hnall hnany
    have hb : ((res1.list_tasks goal0.id).all
        (fun t => decide (t.state = TaskState.completed))) = false := by
      rw [← Bool.not_eq_true, List.all_eq_true]
      intro hcontra
      exact hnall (fun t ht => of_decide_eq_true (hcontra t ht))
    have ha : ((res1.list_tasks goal0.id).any
        (fun t => decide (t.state = TaskState.failed))) = false := by
      rw [← Bool.not_eq_true, List.any_eq_true]
      intro hcontra
      obtain ⟨t, ht, hts⟩ := hcontra
      exact hnany ⟨t, ht, of_decide_eq_true hts⟩
    unfold goalRollup at hget
    dsimp only at hget
    rw [hb, ha] at hget
    simp only [Bool.false_eq_true, if_false] at hget
    exact hget

/-- Witness for `complete_rollup_spec`: completing the only task marks the
goal `Completed` and stamps `completed_at`. -/
theorem complete_rollup_spec_witness :
    (task.complete "T1" "done" none none none 4 c2Db).1.get_goal "G1"
      = some { c2Goal with
               state := GoalState.completed, updated_at := 4,
               completed_at := some 4 } := by
  obtain ⟨g0, hg0, hall, -, -⟩ := complete_rollup_spec "T1" "done" none none none 4 c2Db
    (task.complete "T1" "done" none none none 4 c2Db).1 c2Task1 [] rfl
  have hcg : some c2Goal = some g0 :=
    (show c2Db.get_goal c2Task1.goal_id = some c2Goal from rfl).symm.trans hg0
  cases hcg
  exact hall (by decide)

theorem start_goals (tid : String) (n : Nat) (db : Database) :
    ((task.start tid n db).1).goals = db.goals := by
  unfold task.start
  cases hg : db.get_task tid with
  | none => rfl
  | some t0 =>
      dsimp only
      by_cases hc : t0.contract.isNone
      · rw [if_pos hc]
      · rw [if_neg hc]
        split
        · rfl
        · by_cases hp : t0.state ≠ TaskState.pending
          · rw [if_pos hp]
          · rw [if_neg hp]
            unfold task.startWrite
            dsimp only
            by_cases hres : (db.transition_task_state t0.id TaskState.pending
                TaskState.inProgress n).2 = true
            · rw [hres, if_pos rfl]
              rfl
            · rw [Bool.not_eq_true] at hres
              rw [hres]
              simp only [Bool.false_eq_true, if_false]
              rfl

theorem fail_goals (tid : String) (n : Nat) (db : Database) :
    ((task.fail tid n db).1).goals = db.goals := by
  unfold task.fail
  cases hg : db.get_task tid with
  | none => rfl
  | some t0 =>
      dsimp only
      by_cases hs : t0.state ≠ TaskState.inProgress ∧ t0.state ≠ TaskState.verifying
      · rw [if_pos hs]
      · rw [if_neg hs]
        unfold task.failWrite
        dsimp only
        by_cases hres : (db.transition_task_state_from_any t0.id
            [TaskState.inProgress, TaskState.verifying] TaskState.failed n).2 = true
        · rw [hres, if_pos rfl]
          rfl
        · rw [Bool.not_eq_true] at hres
          rw [hres]
          simp only [Bool.false_eq_true, if_false]
          rfl

theorem retry_goals (tid : String) (n : Nat) (db : Database) :
    ((task.retry tid n db).1).goals = db.goals := by
  unfold task.retry
  cases hg : db.get_task tid with
  | none => rfl
  | some t0 =>
      dsimp only
      by_cases hs : t0.state ≠ TaskState.failed
      · rw [if_pos hs]
      · rw [if_neg hs]
        unfold task.retryWrite
        dsimp only
        by_cases hres : (db.retry_task t0.id n).2 = true
        · rw [hres, if_pos rfl]
          cases hre : (db.retry_task t0.id n).1.get_task t0.id with
          | none => rfl
          | some t => rfl
        · rw [Bool.not_eq_true] at hres
          rw [hres]
          simp only [Bool.false_eq_true, if_false]
          rfl

theorem GoalInv_rollup {g : Goal} (hg : GoalInv g) (ts : List Task) (n : Nat) :
    GoalInv (goalRollup g ts n) := by
  unfold goalRollup
  dsimp only
  split
  · exact ⟨fun _ => rfl, fun _ => Or.inl rfl⟩
  · split
    · refine ⟨fun hc => ?_, fun _ => Or.inr rfl⟩
      cases hc
    · exact hg

theorem DbInv_update_goal {db : Database} {g : Goal} (hdb : DbInv db) (hg : GoalInv g) :
    DbInv (db.update_goal g) := by
  intro g' hg'
  have hgoals : (db.update_goal g).goals = db.goals.map (fun u =>
      if u.id = g.id then { g with id := u.id, created_at := u.created_at } else u) := rfl
  rw [hgoals] at hg'
  rcases List.mem_map.mp hg' with ⟨u, hu, rfl⟩
  by_cases hc : u.id = g.id
  · rw [if_pos hc]
    exact hg
  · rw [if_neg hc]
    exact hdb u hu

theorem goal_create_DbInv (d i : String) (n : Nat) (db : Database) (hdb : DbInv db) :
    DbInv ((goal.create d i n db).1) := by
  unfold goal.create
  dsimp only
  cases hc : db.create_goal
      { id := i, parent_id := none, description := d, state := GoalState.pending,
        created_at := n, updated_at := n, completed_at := none,
        metrics := Metrics.zero } with
  | none => exact hdb
  | some db1 =>
      dsimp only
      unfold Database.create_goal at hc
      by_cases hdup : db.goals.any (fun g => decide (g.id = i))
      · rw [if_pos hdup] at hc; cases hc
      · rw [if_neg hdup] at hc
        cases hc
        intro g hg
        rcases List.mem_append.mp hg with hl | hr
        · exact hdb g hl
        · rw [List.mem_singleton.mp hr]
          constructor
          · intro hc2; cases hc2
          · intro hc2; cases hc2

theorem task_create_DbInv (gid d : String) (re pr ve : Option String)
    (bb : Option (List String)) (i : String) (n : Nat) (db : Database) (hdb : DbInv db) :
    DbInv ((task.create gid d re pr ve bb i n db).1) := by
  unfold task.create
  cases hg : db.get_goal gid with
  | none => exact hdb
  | some goal0 =>
      dsimp only
      have hmem : goal0 ∈ db.goals :=
        List.mem_of_find?_eq_some (show db.goals.find? (fun g => decide (g.id = gid))
          = some goal0 from hg)
      have hinv0 := hdb goal0 hmem
      split
      next => exact hdb
      next =>
        split
        next => exact hdb
        next db1 hc =>
          apply DbInv_update_goal
          · intro g hgmem
            unfold Database.create_task at hc
            by_cases hdup : db.tasks.any (fun t => decide (t.id = i))
            · rw [if_pos hdup] at hc; cases hc
            · rw [if_neg hdup] at hc
              cases hc
              exact hdb g hgmem
          · by_cases hp : goal0.state = GoalState.pending
            · rw [if_pos hp]
              constructor
              · intro hc2; cases hc2
              · intro hc2
                rcases hinv0.2 hc2 with hx | hx
                · rw [hp] at hx; cases hx
                · rw [hp] at hx; cases hx
            · rw [if_neg hp]
              exact hinv0

theorem start_DbInv (tid : String) (n : Nat) (db : Database) (hdb : DbInv db) :
    DbInv ((task.start tid n db).1) := by
  intro g hg
  rw [start_goals] at hg
  exact hdb g hg

theorem fail_DbInv (tid : String) (n : Nat) (db : Database) (hdb : DbInv db) :
    DbInv ((task.fail tid n db).1) := by
  intro g hg
  rw [fail_goals] at hg
  exact hdb g hg

theorem retry_DbInv (tid : String) (n : Nat) (db : Database) (hdb : DbInv db) :
    DbInv ((task.retry tid n db).1) := by
  intro g hg
  rw [retry_goals] at hg
  exact hdb g hg

theorem completeCascade_DbInv (tid : String) (n : Nat) (db1 : Database)
    (hdb : DbInv db1) : DbInv ((task.completeCascade tid n db1).1) := by
  unfold task.completeCascade
  cases hg : db1.get_task tid with
  | none => exact hdb
  | some t1 =>
      dsimp only
      cases hgo : db1.get_goal t1.goal_id with
      | none => exact hdb
      | some g0 =>
          dsimp only
          have hmem : g0 ∈ db1.goals :=
            List.mem_of_find?_eq_some (show db1.goals.find?
              (fun g => decide (g.id = t1.goal_id)) = some g0 from hgo)
          have hres : DbInv ((unblockPass t1.id (db1.list_tasks g0.id) n db1).1) := by
            intro g hgm
            rw [show ((unblockPass t1.id (db1.list_tasks g0.id) n db1).1).goals
              = db1.goals from unblockPass_goals t1.id (db1.list_tasks g0.id) n
                (db1.list_tasks g0.id) (db1, [])] at hgm
            exact hdb g hgm
          have hinv1 : GoalInv { g0 with updated_at := n } :=
            ⟨(hdb g0 hmem).1, (hdb g0 hmem).2⟩
          exact DbInv_update_goal hres (GoalInv_rollup hinv1 _ n)

theorem complete_DbInv (tid rs : String) (arts : Option (List String))
    (tok el : Option Int) (n : Nat) (db : Database) (hdb : DbInv db) :
    DbInv ((task.complete tid rs arts tok el n db).1) := by
  unfold task.complete
  cases hg : db.get_task tid with
  | none => exact hdb
  | some t0 =>
      dsimp only
      by_cases hs : t0.state ≠ TaskState.inProgress
      · rw [if_pos hs]
        exact hdb
      · rw [if_neg hs]
        unfold task.completeWrite
        dsimp only
        by_cases hres : (db.complete_task t0.id rs (arts.getD []) (tok.getD 0)
            (el.getD 0) n n).2 = true
        · rw [hres, if_pos rfl]
          exact completeCascade_DbInv t0.id n _ hdb
        · rw [Bool.not_eq_true] at hres
          rw [hres]
          simp only [Bool.false_eq_true, if_false]
          exact hdb

/-- C7 (amended): in every store reachable through the public operations,
`state = Completed` implies `completed_at` is set, and `completed_at` being
set implies the goal's state is `Completed` *or* `Failed` — the `iff` of the
claim fails because the rollup's failed branch never clears `completed_at` of
a goal that was previously `Completed`. -/
theorem goal_completed_at_invariant (db : Database) (hr : Reachable db) :
    ∀ g ∈ db.goals,
      (g.state = GoalState.completed → g.completed_at.isSome) ∧
      (g.completed_at.isSome →
        g.state = GoalState.completed ∨ g.state = GoalState.failed) := by
  induction hr with
  | empty => intro g hg; cases hg
  | goal_create d i n hr ih => exact goal_create_DbInv d i n _ ih
  | task_create gid d re pr ve bb i n hr ih => exact task_create_DbInv gid d re pr ve bb i n _ ih
  | task_start tid n hr ih => exact start_DbInv tid n _ ih
  | task_complete tid rs arts tok el n hr ih => exact complete_DbInv tid rs arts tok el n _ ih
  | task_fail tid n hr ih => exact fail_DbInv tid n _ ih
  | task_retry tid n hr ih => exact retry_DbInv tid n _ ih

theorem c7d4_reachable : Reachable c7d4 :=
  Reachable.task_complete "T1" "done" none none none 3
    (Reachable.task_start "T1" 2
      (Reachable.task_create "G1" "t1" (some "r") none none none "T1" 1
        (Reachable.goal_create "g" "G1" 0 Reachable.empty)))

theorem c7d10_reachable : Reachable c7d10 :=
  Reachable.task_complete "T3" "done" none none none 9
    (Reachable.task_start "T3" 8
      (Reachable.task_fail "T2" 7
        (Reachable.task_start "T2" 6
          (Reachable.task_create "G1" "t3" (some "r") none none none "T3" 5
            (Reachable.task_create "G1" "t2" (some "r") none none none "T2" 4
              c7d4_reachable)))))

/-- C7 counterexample: the claimed invariant `completed_at is Some iff state =
Completed` is false over reachable stores — `c7d10` holds goal `G1` in state
`Failed` with `completed_at = some 3`. -/
theorem goal_completed_at_iff_counterexample :
    ¬ (∀ db : Database, Reachable db → ∀ g ∈ db.goals,
        (g.completed_at.isSome ↔ g.state = GoalState.completed)) := by
  intro hclaim
  have hg : ∃ g ∈ c7d10.goals, g.state = GoalState.failed ∧ g.completed_at.isSome := by
    decide
  obtain ⟨g, hgmem, hgf, hgs⟩ := hg
  have hcompleted := (hclaim c7d10 c7d10_reachable g hgmem).mp hgs
  rw [hgf] at hcompleted
  cases hcompleted

/-- Witness for `goal_completed_at_invariant` at the reachable store `c7d4`. -/
theorem goal_completed_at_invariant_witness :
    (c7g4.state = GoalState.completed → c7g4.completed_at.isSome) ∧
    (c7g4.completed_at.isSome →
      c7g4.state = GoalState.completed ∨ c7g4.state = GoalState.failed) :=
  goal_completed_at_invariant c7d4 c7d4_reachable c7g4 (by decide)

end Radial
